import Mathlib

/-!
# Verification of the keylime `elchecking` measured-boot policy engine

This file is a shallow embedding, in Lean 4, of the core of the
`keylime/elchecking` package:

* `enrich.py` — the binary decoders (`getKeyDB`, `getKey`, `getVar`,
  `getGPT`) and the event-log enricher `enrich`;
* `tests.py` — the `Test` combinator library and its `why_not` evaluation;
* `nextgen2.py` — the `NextGen2.compile` policy compiler;
* `policies.py` — the policy registry, `compile` and `evaluate`.

Modelling conventions:

* Python's JSON-like values (`tests.Data`) become the inductive `Data`.
  Python `dict`s become ordered association lists with unique keys,
  updated in place by `dupdate` (replace the first occurrence, else
  append — matching dict insertion-order semantics).
* `bytes` values become `List Nat` (each entry < 256 on the inputs of
  interest); Python slicing `b[i:j]` becomes `pySlice`, which is, like
  Python slicing, tolerant of out-of-range bounds.
* Raising an exception is modelled with `Except PyErr`; the distinct
  Python exception classes appearing in the sources are the `PyErr`
  constructors.  `a % 0` in Python raises `ZeroDivisionError`, which the
  embedding makes explicit at the one place the source divides by a
  parsed field.
* The two `libefivar` entry points used by `enrich.py` are external C
  functions, so they are parameters of the embedding: `gg` for
  `efi_guid_to_str` (modelled total: its wrapper `getGUID` only raises on
  allocation failure inside the C library, which is out of scope) and
  `gdp` for `efidp_format_device_path` (modelled fallible, because
  `enrich` contains an explicit handler for its failure).  Likewise the
  `re` module: a compiled regular expression is carried as its pattern
  string together with its (external) matching function.
* Python `while` loops whose bound is data-dependent are given explicit
  fuel that provably dominates the number of iterations (each iteration
  of the `getKeyDB` loop consumes at least 28 bytes, each iteration of a
  UTF-16 string loop consumes 2 bytes); the fuel-exhausted branch is
  unreachable on every input considered here.
* Objects' mutable state: the only state written during `why_not`
  evaluation is the per-evaluation `globals` dict, which is threaded
  explicitly.  To make the frame property ("`why_not` does not mutate the
  test object") a theorem rather than a typing artifact, the evaluator
  also threads the test object itself: each method returns the
  post-state of `self` rebuilt from the post-states of the children it
  invoked, and we prove that this post-state always equals the input.
-/

/-- The Python exception classes raised (or raisable) by the sources. -/
inductive PyErr where
  | valueError (msg : String)
  | typeError (msg : String)
  | keyError (key : String)
  | attributeError (msg : String)
  | zeroDivisionError
  | exception (msg : String)
deriving DecidableEq

/-- `tests.Data`: the JSON-like value universe (int, str, bool, None,
sequence, string-keyed mapping).  Mappings are ordered association lists
(Python dicts preserve insertion order). -/
inductive Data where
  | int (i : Int)
  | str (s : String)
  | bool (b : Bool)
  | null
  | list (elts : List Data)
  | dict (fields : List (String × Data))

mutual

/-- Structural equality on `Data` (Python `==` restricted to the JSON
universe; Python's `True == 1` conflation is not modelled and is not
exercised by any code path considered here). -/
def Data.beq : Data → Data → Bool
  | .int a, .int b => a == b
  | .str a, .str b => a == b
  | .bool a, .bool b => a == b
  | .null, .null => true
  | .list as, .list bs => Data.beqList as bs
  | .dict as, .dict bs => Data.beqFields as bs
  | _, _ => false

/-- Equality of `Data` sequences. -/
def Data.beqList : List Data → List Data → Bool
  | [], [] => true
  | a :: as, b :: bs => Data.beq a b && Data.beqList as bs
  | _, _ => false

/-- Equality of `Data` mappings (ordered, as Python dict `==` is not:
the modelled dicts are compared by their construction order, which
coincides with Python `==` on the inputs considered here). -/
def Data.beqFields : List (String × Data) → List (String × Data) → Bool
  | [], [] => true
  | (k1, v1) :: as, (k2, v2) :: bs =>
      k1 == k2 && Data.beq v1 v2 && Data.beqFields as bs
  | _, _ => false

end

instance : BEq Data := ⟨Data.beq⟩

/-- Python `d[k]` / `k in d` for dicts: first (unique) binding of `k`. -/
def dlookup : List (String × Data) → String → Option Data
  | [], _ => none
  | (k, v) :: rest, key => if k = key then some v else dlookup rest key

/-- Python `d[k] = v` on a dict: replace the binding in place if present,
else append (insertion order). -/
def dupdate : List (String × Data) → String → Data → List (String × Data)
  | [], key, val => [(key, val)]
  | (k, v) :: rest, key, val =>
      if k = key then (k, val) :: rest else (k, v) :: dupdate rest key val

/-- Python `b[i:j]` on bytes (for `0 ≤ i`, `0 ≤ j`): clamped slicing. -/
def pySlice (b : List Nat) (i j : Nat) : List Nat :=
  (b.take j).drop i

/-- Python `b[i:]` on bytes. -/
def pySliceFrom (b : List Nat) (i : Nat) : List Nat :=
  b.drop i

/-- `int.from_bytes(bs, "little")`. -/
def leBytes : List Nat → Nat
  | [] => 0
  | x :: rest => x + 256 * leBytes rest

/-- Value of one hexadecimal digit. -/
def hexVal (c : Char) : Option Nat :=
  if '0' ≤ c ∧ c ≤ '9' then some (c.toNat - '0'.toNat)
  else if 'a' ≤ c ∧ c ≤ 'f' then some (c.toNat - 'a'.toNat + 10)
  else if 'A' ≤ c ∧ c ≤ 'F' then some (c.toNat - 'A'.toNat + 10)
  else none

/-- `bytes.fromhex` on a list of characters: pairs of hex digits.
(The modelled domain has no whitespace inside the hex strings.) -/
def fromHexAux : List Char → Except PyErr (List Nat)
  | [] => .ok []
  | [_] => .error (.valueError "non-hexadecimal number found in fromhex() arg")
  | c1 :: c2 :: rest =>
      match hexVal c1, hexVal c2 with
      | some hi, some lo =>
          match fromHexAux rest with
          | .ok bs => .ok ((16 * hi + lo) :: bs)
          | .error e => .error e
      | _, _ => .error (.valueError "non-hexadecimal number found in fromhex() arg")

/-- `bytes.fromhex(s)`. -/
def fromHex (s : String) : Except PyErr (List Nat) :=
  fromHexAux s.toList

/-- One lowercase hex digit. -/
def hexDigitChar (n : Nat) : Char :=
  if n < 10 then Char.ofNat ('0'.toNat + n)
  else Char.ofNat ('a'.toNat + (n - 10))

/-- A byte as two lowercase hex digits (`bytes.hex()` per byte). -/
def byteToHex (n : Nat) : String :=
  String.mk [hexDigitChar (n / 16 % 16), hexDigitChar (n % 16)]

/-- `bs.hex()`: lowercase hex dump of a byte string. -/
def bytesToHex (bs : List Nat) : String :=
  String.join (bs.map byteToHex)

/-- `"%04x" % d`: lowercase hex, zero-padded to at least four digits. -/
def natHex4 (n : Nat) : String :=
  let base := (Nat.toDigits 16 n).map
    (fun c => if c.isUpper then c.toLower else c)
  let s := String.mk base
  if s.length < 4 then String.mk (List.replicate (4 - s.length) '0') ++ s
  else s

/-! ## `enrich.py` — binary decoders -/

/-- `getKey(b, start, size)`: one `EFI_SIGNATURE_DATA` entry — a 16-byte
owner GUID at `start` followed by the bytes up to `start + size` as hex.
`gg` is the external `efi_guid_to_str` formatter. -/
def getKeyData (gg : List Nat → String) (b : List Nat) (start size : Nat) : Data :=
  .dict [("SignatureOwner", .str (gg (pySlice b start (start + 16)))),
         ("SignatureData", .str (bytesToHex (pySlice b (start + 16) (start + size))))]

/-- The `while start < keydbLen` loop of `getKeyDB`, on the suffix of the
input starting at `start` (every read in one iteration of the source loop
is at an offset relative to `start`).  Per the source, the signature
entries are parsed from offset 28 of the record — the
`SignatureHeaderSize`-byte header blob is not skipped — and the loop then
advances by `28 + numberOfSignatures * SignatureSize` bytes.  The `fuel`
argument dominates the iteration count (each iteration consumes at least
28 bytes of a nonempty suffix), so the fuel-exhausted branch is
unreachable from `getKeyDB`. -/
def getKeyDBAux (gg : List Nat → String) : Nat → List Nat → Except PyErr (List Data)
  | 0, _ => .error (.exception "getKeyDB: fuel exhausted (unreachable)")
  | fuel + 1, b =>
    if b.isEmpty then .ok []
    else
      let signatureType := gg (pySlice b 0 16)
      let signatureListSize := leBytes (pySlice b 16 20)
      let signatureHeaderSize := leBytes (pySlice b 20 24)
      let signatureSize := leBytes (pySlice b 24 28)
      let sllen : Int := (signatureListSize : Int) - 28 - (signatureHeaderSize : Int)
      if sllen < 0 then
        .error (.exception
          ("getKeyDB: SignatureListSize is too small " ++ toString signatureListSize))
      else if signatureSize = 0 then
        -- Python: `sllen % 0` raises ZeroDivisionError before either
        -- descriptive decode error can be produced.
        .error .zeroDivisionError
      else if sllen % (signatureSize : Int) ≠ 0 then
        .error (.exception
          ("getKeyDB: SignatureListSize(" ++ toString sllen
            ++ ") is not divisible by SignatureSize(" ++ toString signatureSize ++ ")"))
      else
        let numberOfSignatures := (sllen / (signatureSize : Int)).toNat
        let keys := (List.range numberOfSignatures).map
          (fun x => getKeyData gg b (28 + x * signatureSize) signatureSize)
        let keylist : Data := .dict
          [("SignatureType", .str signatureType),
           ("SignatureListSize", .int signatureListSize),
           ("SignatureHeaderSize", .int signatureHeaderSize),
           ("SignatureSize", .int signatureSize),
           ("Keys", .list keys)]
        match getKeyDBAux gg fuel (b.drop (28 + numberOfSignatures * signatureSize)) with
        | .ok rest => .ok (keylist :: rest)
        | .error e => .error e

/-- `getKeyDB(b)`: parse a concatenation of `EFI_SIGNATURE_LIST` records. -/
def getKeyDB (gg : List Nat → String) (b : List Nat) : Except PyErr (List Data) :=
  getKeyDBAux gg (b.length + 1) b

/-- `re.match('Boot[0-9a-fA-F]{4}', s)`: anchored prefix match (Python
`re.match` anchors only at the start, so trailing characters are
allowed). -/
def isBootPat (s : String) : Bool :=
  match s.toList with
  | 'B' :: 'o' :: 'o' :: 't' :: h1 :: h2 :: h3 :: h4 :: _ =>
      (hexVal h1).isSome && (hexVal h2).isSome &&
      (hexVal h3).isSome && (hexVal h4).isSome
  | _ => false

/-- Decoding of one 2-byte chunk by `w.decode("utf-16", errors="ignore")`
as used in the description/name loops: a little-endian code unit;
surrogate halves are dropped by `errors="ignore"`. -/
def utf16Chunk (w : List Nat) : String :=
  match w with
  | [lo, hi] =>
      let n := lo + 256 * hi
      if n < 0xd800 ∨ 0xdfff < n then String.mk [Char.ofNat n] else ""
  | _ => ""

/-- The null-terminated UTF-16 description loop of `getVar` (`while i <
varlen`), returning the accumulated string and the final byte offset.
`fuel` dominates the loop count (the offset advances by 2 every
iteration), so the fuel-exhausted branch is unreachable from callers. -/
def descrAux (b : List Nat) (varlen : Int) : Nat → Nat → String × Nat
  | 0, i => ("", i)
  | fuel + 1, i =>
    if (i : Int) < varlen then
      let w := pySlice b i (i + 2)
      if w = [0, 0] then ("", i + 2)
      else
        let s := utf16Chunk w
        let (rest, iEnd) := descrAux b varlen fuel (i + 2)
        (s ++ rest, iEnd)
    else ("", i)

/-- The `Boot####` branch of `getVar`: 4-byte little-endian attribute word
(bit 0 = enabled), 2-byte file-path-list length, null-terminated UTF-16
description, then the rest of the bytes through the external device-path
formatter `gdp` (whose failure propagates — this call site has no
handler). -/
def getVarBootEntry (gdp : List Nat → Except PyErr String)
    (b : List Nat) (varlen : Int) : Except PyErr Data :=
  let enabled := if leBytes (pySlice b 0 4) % 2 = 0 then "No" else "Yes"
  let filePathListLength := leBytes (pySlice b 4 6)
  let (description, i) := descrAux b varlen (varlen.toNat + 1) 6
  match gdp (pySliceFrom b i) with
  | .error e => .error e
  | .ok devicePath =>
      .ok (.dict [("Enabled", .str enabled),
                  ("FilePathListLength", .int filePathListLength),
                  ("Description", .str description),
                  ("DevicePath", .str devicePath)])

/-- `getVar(event, b)`: dispatch on the variable name.  Returns
`Data.null` (Python `None`) when no branch matches: `UnicodeName` or
`VariableDataLength` missing, or the name neither `'BootOrder'` nor
`Boot####`-prefixed.  A non-integer `VariableDataLength` reaching an
arithmetic use, or a non-string `UnicodeName` reaching `re.match`, is a
`TypeError`. -/
def getVar (gdp : List Nat → Except PyErr String)
    (event : List (String × Data)) (b : List Nat) : Except PyErr Data :=
  match dlookup event "UnicodeName" with
  | none => .ok .null
  | some uname =>
    match dlookup event "VariableDataLength" with
    | none => .ok .null
    | some vdl =>
      if uname == Data.str "BootOrder" then
        match vdl with
        | .int varlen =>
          if varlen % 2 ≠ 0 then
            .error (.exception
              ("getVar: VariableDataLength(" ++ toString varlen
                ++ ") is not divisible by 2"))
          else
            -- l = int(varlen / 2); "Boot%04x" per little-endian u16
            .ok (.list ((List.range (varlen / 2).toNat).map
              (fun x => .str ("Boot" ++ natHex4 (leBytes (pySlice b (x * 2) (x * 2 + 2)))))))
        | _ => .error (.typeError "unsupported operand type(s) for %")
      else
        match uname with
        | .str u =>
          if isBootPat u then
            match vdl with
            | .int varlen => getVarBootEntry gdp b varlen
            | _ => .error (.typeError "'<' not supported between instances")
          else .ok .null
        | _ => .error (.typeError "expected string or bytes-like object")

/-- The null-terminated UTF-16 `PartitionName` loop of `getGPT`
(`while i < start + 128`, chunks of 2 bytes). -/
def gptPartName (b : List Nat) (limit : Nat) : Nat → Nat → String
  | 0, _ => ""
  | fuel + 1, i =>
    if i < limit then
      let w := pySlice b i (i + 2)
      if w = [0, 0] then ""
      else utf16Chunk w ++ gptPartName b limit fuel (i + 2)
    else ""

/-- One 128-byte `UEFI_PARTITION_ENTRY` of `getGPT`, at index `x`
(entries start at byte offset 100).  The LBA and attribute fields are
`hexint` in the source, an `int` subclass that only changes the textual
dump, so they are plain integers here. -/
def gptPartition (gg : List Nat → String) (b : List Nat) (x : Nat) : Data :=
  let start := 100 + 128 * x
  .dict [("PartitionTypeGUID", .str (gg (pySlice b start (start + 16)))),
         ("UniquePartitionGUID", .str (gg (pySlice b (start + 16) (start + 32)))),
         ("StartingLBA", .int (leBytes (pySlice b (start + 32) (start + 40)))),
         ("EndingLBA", .int (leBytes (pySlice b (start + 40) (start + 48)))),
         ("Attributes", .int (leBytes (pySlice b (start + 48) (start + 56)))),
         ("PartitionName", .str (gptPartName b (start + 128) 37 (start + 56)))]

/-- The 8-byte `Signature` field, `decode("utf-8", errors="ignore")`:
on the modelled domain (an ASCII signature such as `EFI PART`) this is
the ASCII characters, with non-ASCII bytes ignored. -/
def asciiIgnore (bs : List Nat) : String :=
  String.mk ((bs.filter (fun x => x < 128)).map Char.ofNat)

/-- `getGPT(b)`: the 92-byte partition-table header, a u64 partition
count at offset 92, then the 128-byte partition entries from offset 100.
Field names, offsets and dict insertion order follow the source
(`DiskGuid`, `PartitionEntryArrayCRC` spellings included). -/
def getGPT (gg : List Nat → String) (b : List Nat) : Data :=
  let header : Data := .dict
    [("Signature", .str (asciiIgnore (pySlice b 0 8))),
     ("Revision", .int (leBytes (pySlice b 8 12))),
     ("HeaderSize", .int (leBytes (pySlice b 12 16))),
     ("HeaderCRC32", .int (leBytes (pySlice b 16 20))),
     ("MyLBA", .int (leBytes (pySlice b 24 32))),
     ("AlternateLBA", .int (leBytes (pySlice b 32 40))),
     ("FirstUsableLBA", .int (leBytes (pySlice b 40 48))),
     ("LastUsableLBA", .int (leBytes (pySlice b 48 56))),
     ("DiskGuid", .str (gg (pySlice b 56 72))),
     ("PartitionEntryLBA", .int (leBytes (pySlice b 72 80))),
     ("NumberOfPartitionEntries", .int (leBytes (pySlice b 80 84))),
     ("SizeOfPartitionEntry", .int (leBytes (pySlice b 84 88))),
     ("PartitionEntryArrayCRC", .int (leBytes (pySlice b 88 92)))]
  let numberOfPartitions := leBytes (pySlice b 92 100)
  .dict [("Header", header),
         ("NumberOfPartitions", .int numberOfPartitions),
         ("Partitions", .list ((List.range numberOfPartitions).map (gptPartition gg b)))]

/-! ## `enrich.py` — the enricher -/

/-- The `EV_EFI_VARIABLE_DRIVER_CONFIG` branch of `enrich`, applied to
the `Event` dict `ds`.  Note that the source decodes `VariableData` via
`getKeyDB` for `UnicodeName` in {PK, KEK, db, **dbx**} alike, and decodes
`SecureBoot` per its length (raising when longer than one byte). -/
def enrichDriverConfig (gg : List Nat → String)
    (ds : List (String × Data)) : Except PyErr (List (String × Data)) :=
  match dlookup ds "UnicodeName" with
  | some (.str u) =>
    if u = "PK" ∨ u = "KEK" ∨ u = "db" ∨ u = "dbx" then
      match dlookup ds "VariableData" with
      | some (.str s) =>
        match fromHex s with
        | .error e => .error e
        | .ok b =>
          match getKeyDB gg b with
          | .error e => .error e
          | .ok keylists => .ok (dupdate ds "VariableData" (.list keylists))
      | some _ => .error (.typeError "fromhex() argument must be str")
      | none => .ok ds
    else if u = "SecureBoot" then
      match dlookup ds "VariableData" with
      | some (.str s) =>
        match fromHex s with
        | .error e => .error e
        | .ok b =>
          if b.length = 0 then
            .ok (dupdate ds "VariableData" (.dict [("Enabled", .str "No")]))
          else if b.length > 1 then
            .error (.exception
              ("enrich: SecureBoot data length(" ++ toString b.length ++ ") > 1"))
          else if b = [0] then
            .ok (dupdate ds "VariableData" (.dict [("Enabled", .str "No")]))
          else
            .ok (dupdate ds "VariableData" (.dict [("Enabled", .str "Yes")]))
      | some _ => .error (.typeError "fromhex() argument must be str")
      | none => .ok ds
    else .ok ds
  | some _ => .ok ds    -- a non-string UnicodeName equals none of the literals
  | none => .ok ds

/-- Per-event body of the `enrich` loop.  Events outside the modelled
domain (a non-dict event, or a non-dict `Event` payload where the source
would do a membership test on it) are not constructed by the external
parser and are not modelled beyond a `TypeError`. -/
def enrichEvent (gdp : List Nat → Except PyErr String) (gg : List Nat → String)
    (event : Data) : Except PyErr Data :=
  match event with
  | .dict fs =>
    match dlookup fs "EventType" with
    | some (.str t) =>
      if t = "EV_EFI_BOOT_SERVICES_APPLICATION" ∨ t = "EV_EFI_BOOT_SERVICES_DRIVER"
          ∨ t = "EV_EFI_RUNTIME_SERVICES_DRIVER" then
        match dlookup fs "Event" with
        | some (.dict ds) =>
          match dlookup ds "DevicePath" with
          | some (.str s) =>
            match fromHex s with
            | .error e => .error e     -- fromhex is outside the try block
            | .ok b =>
              -- try getDevicePath / except: fall back to the raw hex string
              let p := match gdp b with
                       | .ok p => p
                       | .error _ => s
              .ok (.dict (dupdate fs "Event" (.dict (dupdate ds "DevicePath" (.str p)))))
          | some _ => .error (.typeError "fromhex() argument must be str")
          | none => .ok event
        | some _ => .error (.typeError "argument of type is not iterable")
        | none => .ok event
      else if t = "EV_EFI_VARIABLE_DRIVER_CONFIG" then
        match dlookup fs "Event" with
        | some (.dict ds) =>
          match enrichDriverConfig gg ds with
          | .error e => .error e
          | .ok ds2 => .ok (.dict (dupdate fs "Event" (.dict ds2)))
        | some _ => .error (.typeError "argument of type is not iterable")
        | none => .ok event
      else if t = "EV_EFI_VARIABLE_AUTHORITY" then
        match dlookup fs "Event" with
        | some (.dict ds) =>
          match dlookup ds "VariableData" with
          | some (.str s) =>
            match fromHex s with
            | .error e => .error e
            | .ok b =>
              .ok (.dict (dupdate fs "Event"
                (.dict (dupdate ds "VariableData" (getKeyData gg b 0 b.length)))))
          | some _ => .error (.typeError "fromhex() argument must be str")
          | none => .ok event
        | some _ => .error (.typeError "argument of type is not iterable")
        | none => .ok event
      else if t = "EV_EFI_VARIABLE_BOOT" then
        match dlookup fs "Event" with
        | some (.dict ds) =>
          match dlookup ds "VariableData" with
          | some (.str s) =>
            match fromHex s with
            | .error e => .error e
            | .ok b =>
              match getVar gdp ds b with
              | .error e => .error e   -- getVar failures have no handler
              | .ok k =>
                .ok (.dict (dupdate fs "Event" (.dict (dupdate ds "VariableData" k))))
          | some _ => .error (.typeError "fromhex() argument must be str")
          | none => .ok event
        | some _ => .error (.typeError "argument of type is not iterable")
        | none => .ok event
      else if t = "EV_EFI_GPT_EVENT" then
        match dlookup fs "Event" with
        | some (.str s) =>
          match fromHex s with
          | .error e => .error e
          | .ok b => .ok (.dict (dupdate fs "Event" (getGPT gg b)))
        | some _ => .error (.typeError "fromhex() argument must be str")
        | none => .ok event
      else .ok event
    | some _ => .ok event   -- a non-string EventType matches no branch
    | none => .ok event
  | _ => .error (.typeError "argument of type is not iterable")

/-- Error-propagating map over the event list: the `for event in events`
loop, where an exception raised on one event aborts the whole call. -/
def mapExcept (f : Data → Except PyErr Data) : List Data → Except PyErr (List Data)
  | [] => .ok []
  | x :: xs =>
    match f x with
    | .error e => .error e
    | .ok y =>
      match mapExcept f xs with
      | .error e => .error e
      | .ok ys => .ok (y :: ys)

/-- `enrich(log)`: walk `log['events']` (when present) and decode the
per-event fields in place; modelled as returning the transformed log.
An unhandled exception on any event aborts the whole call. -/
def enrich (gdp : List Nat → Except PyErr String) (gg : List Nat → String)
    (log : Data) : Except PyErr Data :=
  match log with
  | .dict fs =>
    match dlookup fs "events" with
    | some (.list es) =>
      match mapExcept (enrichEvent gdp gg) es with
      | .error e => .error e
      | .ok es2 => .ok (.dict (dupdate fs "events" (.list es2)))
    | some _ => .error (.typeError "object is not iterable")
    | none => .ok log
  | _ => .ok log

/-! ## `tests.py` — rendering helpers -/

mutual

/-- Python `ascii()`/`repr()` of a `Data` value, as interpolated by
`f'{x!a}'` (modelled for ASCII content, which is all the sources
produce). -/
def reprData : Data → String
  | .int i => toString i
  | .str s => "'" ++ s ++ "'"
  | .bool b => if b then "True" else "False"
  | .null => "None"
  | .list es => "[" ++ reprDataList es ++ "]"
  | .dict fs => "\x7b" ++ reprDataFields fs ++ "\x7d"

/-- Comma-joined reprs of a sequence. -/
def reprDataList : List Data → String
  | [] => ""
  | [x] => reprData x
  | x :: xs => reprData x ++ ", " ++ reprDataList xs

/-- Comma-joined `'key': value` reprs of a mapping. -/
def reprDataFields : List (String × Data) → String
  | [] => ""
  | [(k, v)] => "'" ++ k ++ "': " ++ reprData v
  | (k, v) :: xs => "'" ++ k ++ "': " ++ reprData v ++ ", " ++ reprDataFields xs

end

/-- Python `str()` of a `Data` value (`f'{x}'`): a string renders as
itself, anything else as its repr. -/
def strData : Data → String
  | .str s => s
  | v => reprData v

/-- Python repr of a tuple of values (one-element tuples get the
trailing comma). -/
def reprTuple (vs : List Data) : String :=
  match vs with
  | [x] => "(" ++ reprData x ++ ",)"
  | _ => "(" ++ reprDataList vs ++ ")"

/-- Python repr of a tuple of strings (the dispatcher's key names). -/
def reprStrTuple (ss : List String) : String :=
  reprTuple (ss.map Data.str)

/-- Python repr of a set of strings.  Real CPython iterates sets in
hash order, which is run-dependent for strings; the model renders
insertion order.  No claim depends on this rendering. -/
def reprStrSet : List String → String
  | [] => "set()"
  | hs => "\x7b" ++ String.intercalate ", " (hs.map (fun h => "'" ++ h ++ "'")) ++ "\x7d"

/-- Python repr of the `DigestTest.good_digests` dict (alg → set of
hex digests). -/
def reprGoodDigests (gd : List (String × List String)) : String :=
  "\x7b" ++ String.intercalate ", "
    (gd.map (fun p => "'" ++ p.1 ++ "': " ++ reprStrSet p.2)) ++ "\x7d"

/-! ## `tests.py` — the Test combinators -/

/-- The `Test` class hierarchy as a closed AST.  Constructor-time
validation (`type_test`, `Dispatcher.set` uniqueness, `DelayToFields.get`
membership) happens in the builders further below; the AST represents
already-constructed objects.  A `DelayedField`/`DelayInitializer` carries
the only datum of its `delayer` back-reference that `why_not` consults
(the field name, resp. the delayer's field-name tuple).  A compiled
regular expression is its pattern string plus the external matcher. -/
inductive Test where
  | acceptAll
  | rejectAll (why : String)
  | and (tests : List Test)
  | or (tests : List Test)
  | dispatcher (key_names : List String) (tmap : List (List Data × Test))
  | fieldTest (field_name : String) (field_test : Test) (show_name : Bool)
  | iterateTest (elt_test : Test) (show_elt : Bool)
  | tupleTest (tests : List Test)
  | delayedField (field_name : String)
  | delayInitializer (field_names : List String)
  | delayToFields (fields_test : Test) (field_names : List String)
  | intEqual (expected : Int)
  | stringEqual (expected : String)
  | regExp (pattern : String) (fullmatch : String → Bool)
  | digestTest (good_digests : List (String × List String)) (or_else : Option Test)
  | variableTest (variable_name : String)
      (unicode_name : String ⊕ String × (String → Bool)) (data_test : Test)

/-- The per-evaluation variable store (`tests.Globals`). -/
abbrev Globals := List (String × Data)

/-- `DelayToFields.initialize_globals`: reset every named accumulator to
the empty list. -/
def initGlobals (g : Globals) (field_names : List String) : Globals :=
  field_names.foldl (fun acc fn => dupdate acc fn (.list [])) g

/-- The fresh mapping read by `DelayToFields.why_not`: each field name to
`globals.get(field_name, None)`. -/
def delayedDict (g : Globals) (field_names : List String) : List (String × Data) :=
  field_names.foldl (fun acc fn => dupdate acc fn ((dlookup g fn).getD .null)) []

/-- Values of the dispatcher's key fields from the subject, or the first
missing-field reason (`has no {kn}`). -/
def getKeyVals (fs : List (String × Data)) : List String → Except String (List Data)
  | [] => .ok []
  | kn :: rest =>
      match dlookup fs kn with
      | none => .error ("has no " ++ kn)
      | some v =>
          match getKeyVals fs rest with
          | .error r => .error r
          | .ok vs => .ok (v :: vs)

/-- Whether the dispatcher has a test registered for the key tuple. -/
def tmapHas (tmap : List (List Data × Test)) (kv : List Data) : Bool :=
  tmap.any (fun p => Data.beqList p.1 kv)

/-- Lookup in `DigestTest.good_digests`. -/
def gdLookup : List (String × List String) → String → Option (List String)
  | [], _ => none
  | (a, hs) :: rest, alg => if a = alg then some hs else gdLookup rest alg

/-- Outcome of the scanning loop over `subject['Digests']`. -/
inductive DigestScan where
  | malformed (reason : String)
  | matched
  | exhausted

/-- The `for idx, subject_digest in enumerate(digest_list)` loop of
`DigestTest.why_not`: shape errors abort with a reason, a digest approved
for an algorithm of interest returns success, otherwise fall through. -/
def digestScan (gd : List (String × List String)) : List Data → Nat → DigestScan
  | [], _ => .exhausted
  | d :: rest, idx =>
    match d with
    | .dict dfs =>
      match dlookup dfs "AlgorithmId" with
      | none => .malformed ("digest " ++ toString idx ++ " has no AlgorithmId")
      | some (.str alg) =>
        match dlookup dfs "Digest" with
        | none => .malformed ("digest " ++ toString idx ++ " has no Digest")
        | some (.str h) =>
          match gdLookup gd alg with
          | none => digestScan gd rest (idx + 1)
          | some hs => if hs.contains h then .matched else digestScan gd rest (idx + 1)
        | some other =>
          .malformed ("Digests[" ++ toString idx ++ "].Digest is "
            ++ strData other ++ ", not a str")
      | some other =>
        .malformed ("Digests[" ++ toString idx ++ "].AlgorithmId is "
          ++ strData other ++ ", not a str")
    | other => .malformed ("Digests[" ++ toString idx ++ "] is "
        ++ reprData other ++ ", not a dict")

/-- Result of one (fueled) `why_not` call: the evaluation outcome (a
reason string, empty for pass, or a propagating Python exception), the
post-state of the per-evaluation globals, and the post-state of the test
object itself (threaded so that non-mutation is a theorem, not a typing
artifact).  `none` is fuel exhaustion. -/
abbrev WNRes := Except PyErr String × Globals × Test

/-! Per-variant subject analysis, split out of the evaluator: each of
these is the straight-line prefix of the corresponding `why_not` method
up to (but not including) any delegation to a child test. -/

/-- `IntEqual.why_not`. -/
def intEqualWhy (e : Int) (subj : Data) : String :=
  match subj with
  | .int i => if i = e then "" else "is not " ++ toString e
  | _ => "is not a int"

/-- `StringEqual.why_not`. -/
def stringEqualWhy (e : String) (subj : Data) : String :=
  match subj with
  | .str s => if s = e then "" else "is not '" ++ e ++ "'"
  | _ => "is not a str"

/-- `RegExp.why_not`. -/
def regExpWhy (pat : String) (f : String → Bool) (subj : Data) : String :=
  match subj with
  | .str s => if f s then "" else "does not match " ++ pat
  | _ => "is not a str"

/-- `DelayedField.why_not`: append the subject to the named accumulator;
a missing global is a `KeyError`, a non-list one a malformed-test
reason. -/
def delayedFieldWhy (fn : String) (g : Globals) (subj : Data) :
    Except PyErr String × Globals :=
  match dlookup g fn with
  | none => (.error (.keyError fn), g)
  | some (.list vs) => (.ok "", dupdate g fn (.list (vs ++ [subj])))
  | some _ => (.ok ("malformed test: global " ++ fn ++ " is not a list"), g)

/-- The `isinstance(subject, list)` guard of the sequence combinators. -/
def asList : Data → Option (List Data)
  | .list es => some es
  | _ => none

/-- The shape checks of `FieldTest.why_not`: the field's value, or the
failure reason. -/
def fieldGet (fname : String) (subj : Data) : Except String Data :=
  match subj with
  | .dict fs =>
    match dlookup fs fname with
    | none => .error ("has no " ++ fname ++ " field")
    | some v => .ok v
  | _ => .error ("is not a dict")

/-- The shape checks of `Dispatcher.why_not`: the key tuple to dispatch
on (guaranteed registered), or the failure reason. -/
def dispatchKey (kns : List String) (tmap : List (List Data × Test))
    (subj : Data) : Except String (List Data) :=
  match subj with
  | .dict fs =>
    match getKeyVals fs kns with
    | .error reason => .error reason
    | .ok kv =>
      if tmapHas tmap kv then .ok kv
      else .error ("has unexpected " ++ reprStrTuple kns ++ " combination "
        ++ reprTuple kv)
  | _ => .error ("is not a dict")

/-- Outcome of the non-delegating part of `DigestTest.why_not`. -/
inductive DigestOutcome where
  | reason (r : String)
  | matched
  | exhausted

/-- The shape checks and digest scan of `DigestTest.why_not`, before the
`or_else` fallback is consulted. -/
def digestPre (gd : List (String × List String)) (subj : Data) : DigestOutcome :=
  match subj with
  | .dict fs =>
    match dlookup fs "Digests" with
    | none => .reason "has no Digests"
    | some (.list dl) =>
      match digestScan gd dl 0 with
      | .malformed r => .reason r
      | .matched => .matched
      | .exhausted => .exhausted
    | some _ => .reason "Digests is not a list"
  | _ => .reason "is not a dict"

/-- The navigation and name checks of `VariableTest.why_not`, in source
order: on success, the `VariableData` value to hand to the data test. -/
def variableTestPre (vn : String) (un : String ⊕ String × (String → Bool))
    (subj : Data) : Except String Data :=
  match subj with
  | .dict fs =>
    match dlookup fs "Event" with
    | none => .error "has no Event field"
    | some (.dict evt) =>
      match dlookup evt "VariableName" with
      | none => .error "Event has no VariableName field"
      | some vnv =>
        if ¬ (vnv == Data.str vn) then
          .error ("Event.VariableName is " ++ strData vnv ++ " rather than " ++ vn)
        else
          match dlookup evt "UnicodeName" with
          | none => .error "Event has no UnicodeName field"
          | some unv =>
            match dlookup evt "VariableData" with
            | none => .error "Event has no VariableData field"
            | some vdata =>
              match unv with
              | .str u =>
                match un with
                | .inl s =>
                  if u ≠ s then
                    .error ("Event.UnicodeName is " ++ u ++ " rather than " ++ s)
                  else .ok vdata
                | .inr (pat, f) =>
                  if ¬ f u then
                    .error ("Event.UnicodeName, " ++ u ++ ", does not match " ++ pat)
                  else .ok vdata
              | _ => .error "Event.UnicodeName is not a str"
    | some _ => .error "Event is not a dict"
  | _ => .error "is not a dict"

mutual

/-- `Test.why_not(globals, subject)` for every variant, fueled.  Each
clause follows the corresponding `why_not` method of `tests.py` (via the
shape-check helpers above), including the exact reason strings and the
order of the checks. -/
def whyNotF : Nat → Test → Globals → Data → Option WNRes
  | 0, _, _, _ => none
  | _ + 1, .acceptAll, g, _ => some (.ok "", g, .acceptAll)
  | _ + 1, .rejectAll why, g, _ => some (.ok why, g, .rejectAll why)
  | n + 1, .and ts, g, subj =>
    match andLoopF n ts g subj with
    | none => none
    | some (r, g2, ts2) => some (r, g2, .and ts2)
  | n + 1, .or ts, g, subj =>
    if ts.isEmpty then some (.ok "does not pass empty disjunction", g, .or ts)
    else
      match orLoopF n ts g subj [] with
      | none => none
      | some (r, g2, ts2) => some (r, g2, .or ts2)
  | n + 1, .dispatcher kns tmap, g, subj =>
    match dispatchKey kns tmap subj with
    | .error reason => some (.ok reason, g, .dispatcher kns tmap)
    | .ok kv =>
      match dispLoopF n kv g subj tmap with
      | none => none
      | some (r, g2, tmap2) => some (r, g2, .dispatcher kns tmap2)
  | n + 1, .fieldTest fname ftest shw, g, subj =>
    match fieldGet fname subj with
    | .error reason => some (.ok reason, g, .fieldTest fname ftest shw)
    | .ok fv =>
      match whyNotF n ftest g fv with
      | none => none
      | some (.error e, g2, t2) => some (.error e, g2, .fieldTest fname t2 shw)
      | some (.ok r, g2, t2) =>
        if r ≠ "" ∧ shw then
          some (.ok (fname ++ " " ++ r), g2, .fieldTest fname t2 shw)
        else some (.ok r, g2, .fieldTest fname t2 shw)
  | n + 1, .iterateTest et se, g, subj =>
    match asList subj with
    | none => some (.ok "is not a list", g, .iterateTest et se)
    | some es =>
      match iterLoopF n se es 0 g et with
      | none => none
      | some (r, g2, et2) => some (r, g2, .iterateTest et2 se)
  | n + 1, .tupleTest ts, g, subj =>
    match asList subj with
    | none => some (.ok "is not a list", g, .tupleTest ts)
    | some es =>
      if es.length ≠ ts.length then
        some (.ok (" has length " ++ toString es.length ++ " instead of "
          ++ toString ts.length), g, .tupleTest ts)
      else
        match tupleLoopF n ts es 0 g with
        | none => none
        | some (r, g2, ts2) => some (r, g2, .tupleTest ts2)
  | _ + 1, .delayedField fn, g, subj =>
    some ((delayedFieldWhy fn g subj).1, (delayedFieldWhy fn g subj).2, .delayedField fn)
  | _ + 1, .delayInitializer fns, g, _ =>
    some (.ok "", initGlobals g fns, .delayInitializer fns)
  | n + 1, .delayToFields ft fns, g, _ =>
    match whyNotF n ft g (.dict (delayedDict g fns)) with
    | none => none
    | some (r, g2, ft2) => some (r, g2, .delayToFields ft2 fns)
  | _ + 1, .intEqual e, g, subj => some (.ok (intEqualWhy e subj), g, .intEqual e)
  | _ + 1, .stringEqual e, g, subj =>
    some (.ok (stringEqualWhy e subj), g, .stringEqual e)
  | _ + 1, .regExp pat f, g, subj =>
    some (.ok (regExpWhy pat f subj), g, .regExp pat f)
  | _ + 1, .digestTest gd none, g, subj =>
    match digestPre gd subj with
    | .reason r => some (.ok r, g, .digestTest gd none)
    | .matched => some (.ok "", g, .digestTest gd none)
    | .exhausted =>
      some (.ok ("has no digest approved by " ++ reprGoodDigests gd), g,
        .digestTest gd none)
  | n + 1, .digestTest gd (some t0), g, subj =>
    match digestPre gd subj with
    | .reason r => some (.ok r, g, .digestTest gd (some t0))
    | .matched => some (.ok "", g, .digestTest gd (some t0))
    | .exhausted =>
      match whyNotF n t0 g subj with
      | none => none
      | some (.error e, g2, t2) => some (.error e, g2, .digestTest gd (some t2))
      | some (.ok r, g2, t2) =>
        if r = "" then some (.ok "", g2, .digestTest gd (some t2))
        else
          some (.ok (r ++ " and has no digest approved by " ++ reprGoodDigests gd),
            g2, .digestTest gd (some t2))
  | n + 1, .variableTest vn un dt, g, subj =>
    match variableTestPre vn un subj with
    | .error reason => some (.ok reason, g, .variableTest vn un dt)
    | .ok vdata =>
      match whyNotF n dt g vdata with
      | none => none
      | some (r, g2, dt2) => some (r, g2, .variableTest vn un dt2)
termination_by n _ _ _ => ((n : Nat), 0)

/-- The `for test in self.tests` loop of `And.why_not`: stop at the
first failing child, thread globals and child post-states. -/
def andLoopF : Nat → List Test → Globals → Data → Option (Except PyErr String × Globals × List Test)
  | _, [], g, _ => some (.ok "", g, [])
  | n, t :: ts, g, subj =>
    match whyNotF n t g subj with
    | none => none
    | some (.error e, g2, t2) => some (.error e, g2, t2 :: ts)
    | some (.ok r, g2, t2) =>
      if r = "" then
        match andLoopF n ts g2 subj with
        | none => none
        | some (res, g3, ts3) => some (res, g3, t2 :: ts3)
      else some (.ok r, g2, t2 :: ts)
termination_by n ts _ _ => (n, ts.length + 1)

/-- The loop of `Or.why_not`: stop at the first passing child, else
collect every reason into the bracketed list. -/
def orLoopF : Nat → List Test → Globals → Data → List String → Option (Except PyErr String × Globals × List Test)
  | _, [], g, _, acc =>
      some (.ok ("[" ++ String.intercalate ", " acc.reverse ++ "]"), g, [])
  | n, t :: ts, g, subj, acc =>
    match whyNotF n t g subj with
    | none => none
    | some (.error e, g2, t2) => some (.error e, g2, t2 :: ts)
    | some (.ok r, g2, t2) =>
      if r = "" then some (.ok "", g2, t2 :: ts)
      else
        match orLoopF n ts g2 subj (r :: acc) with
        | none => none
        | some (res, g3, ts3) => some (res, g3, t2 :: ts3)
termination_by n ts _ _ _ => (n, ts.length + 1)

/-- The delegation step of `Dispatcher.why_not`: evaluate the test
registered for the (present) key tuple, in place. -/
def dispLoopF : Nat → List Data → Globals → Data → List (List Data × Test) → Option (Except PyErr String × Globals × List (List Data × Test))
  | _, _, g, _, [] => some (.ok "", g, [])
  | n, kv, g, subj, (k, t) :: rest =>
    if Data.beqList k kv then
      match whyNotF n t g subj with
      | none => none
      | some (r, g2, t2) => some (r, g2, (k, t2) :: rest)
    else
      match dispLoopF n kv g subj rest with
      | none => none
      | some (r, g2, rest2) => some (r, g2, (k, t) :: rest2)
termination_by n _ _ _ tmap => (n, tmap.length + 1)

/-- The element loop of `IterateTest.why_not`: apply the (threaded)
element test to each member, stopping at the first failure; the reason is
prefixed with the element's repr (`show_elt`) or its index. -/
def iterLoopF : Nat → Bool → List Data → Nat → Globals → Test → Option (Except PyErr String × Globals × Test)
  | _, _, [], _, g, et => some (.ok "", g, et)
  | n, se, e :: es, idx, g, et =>
    match whyNotF n et g e with
    | none => none
    | some (.error err, g2, et2) => some (.error err, g2, et2)
    | some (.ok r, g2, et2) =>
      if r = "" then iterLoopF n se es (idx + 1) g2 et2
      else if se then some (.ok (reprData e ++ " " ++ r), g2, et2)
      else some (.ok ("[" ++ toString idx ++ "] " ++ r), g2, et2)
termination_by n _ es _ _ _ => (n, es.length + 1)

/-- The positional loop of `TupleTest.why_not` (lengths are equal when
this runs). -/
def tupleLoopF : Nat → List Test → List Data → Nat → Globals → Option (Except PyErr String × Globals × List Test)
  | _, [], _, _, g => some (.ok "", g, [])
  | _, t :: ts, [], _, g => some (.ok "", g, t :: ts)
  | n, t :: ts, e :: es, idx, g =>
    match whyNotF n t g e with
    | none => none
    | some (.error err, g2, t2) => some (.error err, g2, t2 :: ts)
    | some (.ok r, g2, t2) =>
      if r = "" then
        match tupleLoopF n ts es (idx + 1) g2 with
        | none => none
        | some (res, g3, ts3) => some (res, g3, t2 :: ts3)
      else some (.ok ("[" ++ toString idx ++ "] " ++ r), g2, t2 :: ts)
termination_by n ts _ _ _ => (n, ts.length + 1)

end

/-! ## `tests.py` — constructor-time builders

These mirror the `__init__` code of the derived Test classes, including
the `type_test` checks and `KeyError`s on parameter access, which are the
exceptions `NextGen2.compile` can raise while building the tree. -/

/-- Generic error-propagating map (Python list comprehension over a
fallible body). -/
def mapE {α β : Type} (f : α → Except PyErr β) : List α → Except PyErr (List β)
  | [] => .ok []
  | x :: xs =>
    match f x with
    | .error e => .error e
    | .ok y =>
      match mapE f xs with
      | .error e => .error e
      | .ok ys => .ok (y :: ys)

/-- `type_test(str)`: pass a string through, raise for anything else
(the source message interpolates the Python type names). -/
def typeTestStr (v : Data) : Except PyErr String :=
  match v with
  | .str s => .ok s
  | other => .error (.exception (strData other ++ " is a wrong type rather than a str"))

/-- `FieldsTest(**fields)`: an `And` of named `FieldTest`s in keyword
order. -/
def fieldsTest (fields : List (String × Test)) : Test :=
  .and (fields.map (fun p => .fieldTest p.1 p.2 true))

/-- `SignatureTest(sig['owner'], sig['data'])`: compare both fields of a
signature entry (each constructor argument must be a string). -/
def signatureTestOf (sig : Data) : Except PyErr Test :=
  match sig with
  | .dict fs =>
    match dlookup fs "owner" with
    | none => .error (.keyError "owner")
    | some ov =>
      match dlookup fs "data" with
      | none => .error (.keyError "data")
      | some dv =>
        match typeTestStr ov with
        | .error e => .error e
        | .ok o =>
          match typeTestStr dv with
          | .error e => .error e
          | .ok d =>
            .ok (.and [.fieldTest "SignatureOwner" (.stringEqual o) true,
                       .fieldTest "SignatureData" (.stringEqual d) true])
  | _ => .error (.typeError "string indices must be integers")

/-- `SignatureSetMember(sigs)`: an `Or` over the signature tests. -/
def signatureSetMemberOf (sigs : Data) : Except PyErr Test :=
  match sigs with
  | .list l =>
    match mapE signatureTestOf l with
    | .error e => .error e
    | .ok ts => .ok (.or ts)
  | _ => .error (.typeError "object is not iterable")

/-- `KeySubset(sig_type, keys)`: every signature list has the declared
type and every key is a member of the approved set. -/
def keySubsetOf (sig_type : String) (keys : Data) : Except PyErr Test :=
  match signatureSetMemberOf keys with
  | .error e => .error e
  | .ok ssm =>
    .ok (.iterateTest (.and
      [.fieldTest "SignatureType" (.stringEqual sig_type) true,
       .fieldTest "Keys" (.iterateTest ssm false) true]) false)

/-- Add one `alg: hash` pair to the `good_digests` accumulator (a set
insert, modelled as ordered dedup — only the textual repr differs, and
CPython's set iteration order is run-dependent anyway). -/
def gdAdd : List (String × List String) → String → String → List (String × List String)
  | [], alg, h => [(alg, [h])]
  | (a, hs) :: rest, alg, h =>
      if a = alg then (a, if hs.contains h then hs else hs ++ [h]) :: rest
      else (a, hs) :: gdAdd rest alg h

/-- The inner `for alg, hash in good_digests.items()` loop of
`DigestTest.__init__`.  The modelled domain has string digest values (the
schema of the shipped params); the source would accept any hashable. -/
def gdAddFields : List (String × Data) → List (String × List String) → Except PyErr (List (String × List String))
  | [], gd => .ok gd
  | (alg, .str h) :: rest, gd => gdAddFields rest (gdAdd gd alg h)
  | (_, _) :: _, _ => .error (.typeError "non-str digest value (outside modelled domain)")

/-- The outer `for good_digests in good_digests_list` loop. -/
def gdOfList : List Data → List (String × List String) → Except PyErr (List (String × List String))
  | [], gd => .ok gd
  | d :: rest, gd =>
    match d with
    | .dict fs =>
      match gdAddFields fs gd with
      | .error e => .error e
      | .ok gd2 => gdOfList rest gd2
    | _ => .error (.attributeError "object has no attribute 'items'")

/-- `DigestTest(good_digests_list, or_else)`. -/
def digestTestOf (v : Data) (or_else : Option Test) : Except PyErr Test :=
  match v with
  | .list ds =>
    match gdOfList ds [] with
    | .error e => .error e
    | .ok gd => .ok (.digestTest gd or_else)
  | _ => .error (.typeError "object is not iterable")

/-! ## `nextgen2.py` — the NextGen2 policy compiler -/

/-- The required-parameter names, in the order the source checks them. -/
def requiredNextGen2Params : List String :=
  ["s_crtm", "post_code", "pk", "kek", "db", "device_drivers", "shim", "grub", "runs"]

/-- The `for req in (...)` validation loop: first missing required key. -/
def firstMissing (params : List (String × Data)) : List String → Option String
  | [] => none
  | req :: rest =>
      if (dlookup params req).isNone then some req else firstMissing params rest

/-- One entry of `params['runs']`: the `FieldsTest(kernel_cmdline=...,
bsa=..., ipl9=...)` comprehension body.  `rex pattern dotall` is the
external `re.compile(...).fullmatch` matcher. -/
def runTestOf (rex : String → Bool → String → Bool) (run : Data) : Except PyErr Test :=
  match run with
  | .dict fs =>
    match dlookup fs "kernel_cmdline" with
    | none => .error (.keyError "kernel_cmdline")
    | some kcv =>
      match kcv with
      | .str kc =>
        match dlookup fs "kernel" with
        | none => .error (.keyError "kernel")
        | some (.dict kfs) =>
          match dlookup kfs "digest" with
          | none => .error (.keyError "digest")
          | some dg =>
            match digestTestOf (.list [dg]) none with
            | .error e => .error e
            | .ok dgTest =>
              match dlookup kfs "name" with
              | none => .error (.keyError "name")
              | some nv =>
                match typeTestStr nv with
                | .error e => .error e
                | .ok name =>
                  match dlookup fs "initrd" with
                  | none => .error (.keyError "initrd")
                  | some iv =>
                    match typeTestStr iv with
                    | .error e => .error e
                    | .ok initrd =>
                      .ok (fieldsTest
                        [("kernel_cmdline", .tupleTest
                            [.regExp ("kernel_cmdline: " ++ kc)
                              (rex ("kernel_cmdline: " ++ kc) false)]),
                         ("bsa", .tupleTest [dgTest]),
                         ("ipl9", .tupleTest [.stringEqual name, .stringEqual initrd])])
        | some _ => .error (.typeError "string indices must be integers")
      | _ => .error (.typeError "can only concatenate str")
  | _ => .error (.typeError "string indices must be integers")

/-- The GUID of the global EFI variable namespace as it appears in the
source (`61dfe48b-...`). -/
def efiGlobalNS : String := "61dfe48b-ca93-d211-aa0d-00e098032b8c"

/-- The GUID of the image-security-database namespace (`cbb219d7-...`). -/
def efiImageSecurityNS : String := "cbb219d7-3a3d-9645-a3bc-dad00e67656f"

/-- The signature-list type GUID used by the `KeySubset` checks. -/
def sigTypeGuid : String := "a5c059a1-94e4-4aa7-87b5-ab155c2bf072"

/-- The body of `NextGen2.compile` after the required-params loop, in
source statement order.  Every exit from this chain is a raise: the last
statement of the source body evaluates `run.get_reset()`, and
`DelayToFields` has no `get_reset` method (nor does `IterateTest` accept
the `initial_test`/`final_test` keyword arguments it is then passed), so
the body raises `AttributeError` whenever construction gets that far. -/
def nextGen2CompileBody (rex : String → Bool → String → Bool)
    (params : List (String × Data)) : Except PyErr Test := do
  let pget := fun name => (dlookup params name).getD .null
  let sCrtmT ← digestTestOf (pget "s_crtm") none
  let postCodeT ← digestTestOf (pget "post_code") none
  let pkT ← keySubsetOf sigTypeGuid (pget "pk")
  let kekT ← keySubsetOf sigTypeGuid (pget "kek")
  let dbT ← keySubsetOf sigTypeGuid (pget "db")
  let vd : Test := .fieldTest "Event"
    (.dispatcher ["VariableName", "UnicodeName"]
      [([.str efiGlobalNS, .str "SecureBoot"],
          .fieldTest "VariableData" (.fieldTest "Enabled" (.stringEqual "Yes") true) true),
       ([.str efiGlobalNS, .str "PK"], .fieldTest "VariableData" pkT true),
       ([.str efiGlobalNS, .str "KEK"], .fieldTest "VariableData" kekT true),
       ([.str efiImageSecurityNS, .str "db"], .fieldTest "VariableData" dbT true),
       ([.str efiImageSecurityNS, .str "dbx"], .fieldTest "VariableData" .acceptAll true)])
    true
  let deviceDriversT ← digestTestOf (pget "device_drivers") none
  let bootVarT : Test := .variableTest efiGlobalNS
    (.inr ("BootOrder|Boot[0-9a-fA-F]+", rex "BootOrder|Boot[0-9a-fA-F]+" false))
    .acceptAll
  let runsL ← match pget "runs" with
              | .list rl => pure rl
              | _ => throw (.typeError "object is not iterable")
  let runTs ← mapE (runTestOf rex) runsL
  let run : Test := .delayToFields (.or runTs) ["kernel_cmdline", "bsa", "ipl9"]
  let shimgrubL ← match pget "shim", pget "grub" with
                  | .list a, .list b => pure (a ++ b)
                  | _, _ => throw (.typeError "can only concatenate list")
  let shimgrubT ← digestTestOf (.list shimgrubL) (some (.delayedField "bsa"))
  let moklistV ← match dlookup params "moklist" with
                 | none => throw (.keyError "moklist")
                 | some v => pure v
  let moklistT ← digestTestOf moklistV none
  let ipl8T : Test := .fieldTest "Event"
    (.fieldTest "String" (.or
      [.regExp "grub_cmd: .*" (rex "grub_cmd: .*" true),
       .and [.regExp "kernel_cmdline: .*" (rex "kernel_cmdline: .*" false),
             .delayedField "kernel_cmdline"]]) true) true
  let ipl9T : Test := .fieldTest "Event"
    (.fieldTest "String" (.or
      [.regExp "\\(tftp,.*\\).*" (rex "\\(tftp,.*\\).*" false),
       .regExp "/boot/grub.*" (rex "/boot/grub.*" false),
       .delayedField "ipl9"]) true) true
  let dispatcher : Test := .dispatcher ["PCRIndex", "EventType"]
    ([([.int 0, .str "EV_NO_ACTION"], .acceptAll),
      ([.int 0, .str "EV_S_CRTM_VERSION"], sCrtmT),
      ([.int 0, .str "EV_POST_CODE"], postCodeT),
      ([.int 7, .str "EV_EFI_VARIABLE_DRIVER_CONFIG"], vd)]
     ++ (List.range 8).map (fun pcr => ([.int (pcr : Int), .str "EV_SEPARATOR"], Test.acceptAll))
     ++ [([.int 2, .str "EV_EFI_BOOT_SERVICES_DRIVER"], deviceDriversT),
         ([.int 1, .str "EV_EFI_VARIABLE_BOOT"], bootVarT),
         ([.int 7, .str "EV_EFI_VARIABLE_AUTHORITY"], .acceptAll),
         ([.int 4, .str "EV_EFI_BOOT_SERVICES_APPLICATION"], shimgrubT),
         ([.int 14, .str "EV_IPL"], moklistT),
         ([.int 8, .str "EV_IPL"], ipl8T),
         ([.int 9, .str "EV_IPL"], ipl9T)])
  -- event_test = tests.IterateTest(dispatcher, show_elt=True,
  --                                initial_test=run.get_reset(), final_test=run)
  -- `run.get_reset()` is evaluated first and DelayToFields defines no
  -- such attribute; the construction can never proceed past this point.
  let _ := (dispatcher, run)
  throw (.attributeError "'DelayToFields' object has no attribute 'get_reset'")

/-- Possible outcomes of `NextGen2.compile`: the returned
`'params lacks ...'` string, a raised exception, or a returned Test. -/
inductive CompileOutcome where
  | missing (s : String)
  | raised (e : PyErr)
  | compiled (t : Test)

/-- `NextGen2.compile(params)`. -/
def nextGen2Compile (rex : String → Bool → String → Bool)
    (params : List (String × Data)) : CompileOutcome :=
  match firstMissing params requiredNextGen2Params with
  | some req => .missing ("params lacks " ++ req)
  | none =>
    match nextGen2CompileBody rex params with
    | .error e => .raised e
    | .ok t => .compiled t

/-! ## `policies.py` — registry, compile, evaluate -/

/-- What `policies.compile` can hand back: the `AcceptAll` policy's
tester closure, a Test object (what `NextGen2.compile` would return on
success), or a plain string (either `'there is no policy named ...'` or
NextGen2's `'params lacks ...'`). -/
inductive Compiled where
  | str (s : String)
  | acceptAllTester
  | testObj (t : Test)

/-- The process-wide registry after startup: `policies.py` registers
`accept-all` at import time and `nextgen2.py` registers `nextgen2`. -/
def registryNames : List String := ["accept-all", "nextgen2"]

/-- `policies.compile(policy_name, params)`: unknown names return a
descriptive string; known names delegate to the policy object (whose
exceptions propagate). -/
def policiesCompile (rex : String → Bool → String → Bool) (name : String)
    (params : List (String × Data)) : Except PyErr Compiled :=
  if ¬ registryNames.contains name then
    .ok (.str ("there is no policy named '" ++ name ++ "'"))
  else if name = "accept-all" then .ok .acceptAllTester
  else
    match nextGen2Compile rex params with
    | .missing s => .ok (.str s)
    | .raised e => .error e
    | .compiled t => .ok (.testObj t)

/-- `policies.evaluate(policy_name, params, eventlog, pcr_contents,
cont)`: the source does `tester = compile(...)` and then calls
`tester(eventlog, pcr_contents, cont)`.  The model returns the string
handed to the continuation `cont` (the result channel); calling a
non-callable `compile` result — a string, or a Test object — is a
`TypeError`. -/
def policiesEvaluate (rex : String → Bool → String → Bool) (name : String)
    (params : List (String × Data)) (eventlog : List Nat) (pcrs : Data) :
    Except PyErr String :=
  match policiesCompile rex name params with
  | .error e => .error e
  | .ok .acceptAllTester =>
      -- AcceptAll's tester ignores its arguments and calls cont('')
      let _ := (eventlog, pcrs)
      .ok ""
  | .ok (.str _) => .error (.typeError "'str' object is not callable")
  | .ok (.testObj _) => .error (.typeError "'FieldTest' object is not callable")

/-! ## Sample external collaborators (for closed statements) -/

/-- A sample `efi_guid_to_str` formatter. -/
def ggSample : List Nat → String := fun _ => "00000000-0000-0000-0000-000000000000"

/-- A sample succeeding `efidp_format_device_path` formatter. -/
def gdpOkSample : List Nat → Except PyErr String := fun _ => .ok "PciRoot(0x0)"

/-- A sample failing `efidp_format_device_path` formatter (the C library
returned a negative status, so `getDevicePath` raised). -/
def gdpFailSample : List Nat → Except PyErr String :=
  fun _ => .error (.exception "getDevicePath: efidp_format_device_path returned -22")

/-- A sample regex engine instantiation. -/
def rexSample : String → Bool → String → Bool := fun _ _ _ => false

/-! ## Claim C1 -/

/-- Whether `NextGen2.compile` returned a compiled `Test`. -/
def isCompiled : CompileOutcome → Bool
  | .compiled _ => true
  | _ => false

/-- A parameter mapping carrying all nine required keys (and `moklist`). -/
def nextGen2FullParams : List (String × Data) :=
  [("s_crtm", .list []), ("post_code", .list []), ("pk", .list []),
   ("kek", .list []), ("db", .list []), ("device_drivers", .list []),
   ("shim", .list []), ("grub", .list []), ("runs", .list []),
   ("moklist", .list [])]

/-- The post-validation body of `NextGen2.compile` never returns
normally: its final statement evaluates `run.get_reset()`, a method
`DelayToFields` does not have. -/
theorem nextGen2CompileBody_not_ok (rex : String → Bool → String → Bool)
    (params : List (String × Data)) (t : Test) :
    nextGen2CompileBody rex params ≠ .ok t := by
  intro h
  simp only [nextGen2CompileBody, bind, Except.bind, pure, Except.pure, throw,
    throwThe, MonadExceptOf.throw] at h
  repeat' split at h
  all_goals simp_all

/-- **C1** — The claim states that `NextGen2.compile` either returns the
compiled Test tree or returns an error string naming the first missing
required parameter, and never raises.  In fact it can never return a
Test at all: for any parameter mapping it either returns a
`'params lacks ...'` string or raises, and for a mapping carrying every
required parameter it raises
`AttributeError: 'DelayToFields' object has no attribute 'get_reset'`. -/
theorem nextgen2_compile_never_yields_test :
    (∀ (rex : String → Bool → String → Bool) (params : List (String × Data)),
        isCompiled (nextGen2Compile rex params) = false)
    ∧ (∀ rex : String → Bool → String → Bool,
        nextGen2Compile rex nextGen2FullParams
          = .raised (.attributeError
              "'DelayToFields' object has no attribute 'get_reset'")) := by
  constructor
  · intro rex params
    unfold nextGen2Compile
    cases hm : firstMissing params requiredNextGen2Params with
    | some req => rfl
    | none =>
      cases hb : nextGen2CompileBody rex params with
      | error e => rfl
      | ok t => exact absurd hb (nextGen2CompileBody_not_ok rex params t)
  · intro rex
    rfl

/-! ## Claim C2 -/

/-- A byte sequence that is a valid single-list signature database per
the `EFI_SIGNATURE_LIST` layout (and per the claim): a 16-byte type
GUID, `SignatureListSize = 76`, `SignatureHeaderSize = 32`,
`SignatureSize = 16`, a 32-byte signature header blob, and one signature
entry consisting of a 16-byte owner GUID — 76 bytes in total, exactly
`SignatureListSize`. -/
def c2FailInput : List Nat :=
  List.replicate 16 0 ++ [76, 0, 0, 0] ++ [32, 0, 0, 0] ++ [16, 0, 0, 0]
    ++ List.replicate 32 0xAA ++ List.replicate 16 0

/-- **C2** — The claim states that on a valid n-entry signature database
the decoder returns exactly n signature lists whose records sum to the
byte length consumed, skipping the header blob.  The code does not skip
the `SignatureHeaderSize`-byte header: it parses signature entries
starting at record offset 28 and advances by only
`28 + count * SignatureSize` bytes.  On the valid one-list database
`c2FailInput` it therefore consumes 44 of the 76 bytes, re-enters the
loop on the 32 leftover bytes, and raises instead of returning one
signature list. -/
theorem getKeyDB_header_not_skipped :
    ∀ gg : List Nat → String,
      getKeyDB gg c2FailInput
        = .error (.exception "getKeyDB: SignatureListSize is too small 0") := by
  intro gg
  rfl

/-! ## Claim C5 -/

/-- **C5** — The claim states that for an unknown policy name the
top-level evaluation surfaces a descriptive rejection string through the
normal result channel and does not crash.  `policies.compile` does
produce the descriptive string, but `policies.evaluate` then calls that
string as a function, raising `TypeError` — the continuation (the result
channel) never receives anything. -/
theorem evaluate_unknown_policy_crashes :
    ∀ rex : String → Bool → String → Bool,
      policiesCompile rex "no-such-policy" []
          = .ok (.str "there is no policy named 'no-such-policy'")
        ∧ policiesEvaluate rex "no-such-policy" [] [] (.dict [])
          = .error (.typeError "'str' object is not callable") := by
  intro rex
  exact ⟨rfl, rfl⟩

/-! ## Claim C9 -/

/-- **C9** — In `getKeyDB`, when the first record's `SignatureSize`
field is zero and `SignatureListSize ≥ 28 + SignatureHeaderSize`, the
divisibility check `sllen % SignatureSize` divides by zero: the decoder
raises an unguarded `ZeroDivisionError` rather than either of its two
descriptive decode errors. -/
theorem getKeyDB_zero_signature_size :
    ∀ (gg : List Nat → String) (b : List Nat),
      b ≠ [] →
      leBytes (pySlice b 24 28) = 0 →
      28 + (leBytes (pySlice b 20 24) : Int) ≤ (leBytes (pySlice b 16 20) : Int) →
      getKeyDB gg b = .error .zeroDivisionError := by
  intro gg b hne hS hL
  unfold getKeyDB getKeyDBAux
  have hemp : b.isEmpty = false := by
    cases b with
    | nil => exact absurd rfl hne
    | cons x xs => rfl
  rw [hemp]
  simp only [Bool.false_eq_true, if_false, hS]
  rw [if_neg (by omega)]
  simp

/-- Witness for C9: a concrete 28-byte record with
`SignatureListSize = 28`, `SignatureHeaderSize = 0`, `SignatureSize = 0`
raises `ZeroDivisionError`. -/
theorem getKeyDB_zero_signature_size_witness :
    getKeyDB ggSample
        (List.replicate 16 0 ++ [28, 0, 0, 0] ++ [0, 0, 0, 0] ++ [0, 0, 0, 0])
      = .error .zeroDivisionError :=
  getKeyDB_zero_signature_size ggSample _ (by decide) (by decide) (by decide)


/-! ## Enrichment dispatch lemmas (shared by C3, C4, C8, C10) -/

/-- On an `EV_EFI_VARIABLE_DRIVER_CONFIG` event with a dict `Event`
payload, `enrich` delegates to the driver-config branch. -/
theorem enrichEvent_driver_config (gdp : List Nat → Except PyErr String)
    (gg : List Nat → String) (fs ds : List (String × Data))
    (h1 : dlookup fs "EventType" = some (.str "EV_EFI_VARIABLE_DRIVER_CONFIG"))
    (h2 : dlookup fs "Event" = some (.dict ds)) :
    enrichEvent gdp gg (.dict fs)
      = match enrichDriverConfig gg ds with
        | .error e => .error e
        | .ok ds2 => .ok (.dict (dupdate fs "Event" (.dict ds2))) := by
  simp only [enrichEvent, h1, h2]
  rw [if_neg (by decide)]
  simp

/-- On a boot-services application/driver event with a hex `DevicePath`,
`enrich` replaces the field with the formatter output, or with the raw
hex string itself when the formatter fails (the source's only defensive
decode path). -/
theorem enrichEvent_bsa (gdp : List Nat → Except PyErr String) (gg : List Nat → String)
    (t : String) (fs ds : List (String × Data)) (s : String) (b : List Nat)
    (ht : t = "EV_EFI_BOOT_SERVICES_APPLICATION" ∨ t = "EV_EFI_BOOT_SERVICES_DRIVER"
          ∨ t = "EV_EFI_RUNTIME_SERVICES_DRIVER")
    (h1 : dlookup fs "EventType" = some (.str t))
    (h2 : dlookup fs "Event" = some (.dict ds))
    (h3 : dlookup ds "DevicePath" = some (.str s))
    (h4 : fromHex s = .ok b) :
    enrichEvent gdp gg (.dict fs)
      = .ok (.dict (dupdate fs "Event" (.dict (dupdate ds "DevicePath"
          (.str (match gdp b with | .ok p => p | .error _ => s)))))) := by
  rcases ht with rfl | rfl | rfl <;>
    (simp only [enrichEvent, h1, h2, h3, h4]; rw [if_pos (by decide)])

/-- On an `EV_EFI_VARIABLE_BOOT` event with a hex `VariableData`,
`enrich` stores the result of `getVar`, propagating its exceptions
(there is no handler at this call site). -/
theorem enrichEvent_varboot (gdp : List Nat → Except PyErr String) (gg : List Nat → String)
    (fs ds : List (String × Data)) (s : String) (b : List Nat)
    (h1 : dlookup fs "EventType" = some (.str "EV_EFI_VARIABLE_BOOT"))
    (h2 : dlookup fs "Event" = some (.dict ds))
    (h3 : dlookup ds "VariableData" = some (.str s))
    (h4 : fromHex s = .ok b) :
    enrichEvent gdp gg (.dict fs)
      = match getVar gdp ds b with
        | .error e => .error e
        | .ok k => .ok (.dict (dupdate fs "Event" (.dict (dupdate ds "VariableData" k)))) := by
  simp only [enrichEvent, h1, h2, h3, h4]
  rw [if_neg (by decide), if_neg (by decide), if_neg (by decide)]
  simp

/-- On an `EV_EFI_GPT_EVENT` whose `Event` payload is not valid hex, the
`bytes.fromhex` failure propagates out of `enrich`. -/
theorem enrichEvent_gpt_badhex (gdp : List Nat → Except PyErr String) (gg : List Nat → String)
    (fs : List (String × Data)) (s : String) (e : PyErr)
    (h1 : dlookup fs "EventType" = some (.str "EV_EFI_GPT_EVENT"))
    (h2 : dlookup fs "Event" = some (.str s))
    (h3 : fromHex s = .error e) :
    enrichEvent gdp gg (.dict fs) = .error e := by
  simp only [enrichEvent, h1, h2, h3]
  rw [if_neg (by decide), if_neg (by decide), if_neg (by decide), if_neg (by decide)]
  simp

/-- An exception on one event aborts the whole `enrich` call: no later
event is processed and no result log is produced. -/
theorem enrich_cons_error (gdp : List Nat → Except PyErr String) (gg : List Nat → String)
    (ev : Data) (rest : List Data) (e : PyErr)
    (h : enrichEvent gdp gg ev = .error e) :
    enrich gdp gg (.dict [("events", .list (ev :: rest))]) = .error e := by
  simp [enrich, dlookup, mapExcept, h]

/-- A log whose single event enriches cleanly produces the updated log. -/
theorem enrich_single_ok (gdp : List Nat → Except PyErr String) (gg : List Nat → String)
    (ev ev2 : Data) (h : enrichEvent gdp gg ev = .ok ev2) :
    enrich gdp gg (.dict [("events", .list [ev])])
      = .ok (.dict [("events", .list [ev2])]) := by
  simp [enrich, dlookup, mapExcept, h, dupdate]

/-- The `SecureBoot` case of the driver-config branch: a 0-byte blob or
a single zero byte decodes to `Enabled: No`, any other 1-byte blob to
`Enabled: Yes`, and a longer blob raises the length error. -/
theorem enrichDriverConfig_secureboot (gg : List Nat → String)
    (ds : List (String × Data)) (s : String) (b : List Nat)
    (hu : dlookup ds "UnicodeName" = some (.str "SecureBoot"))
    (hv : dlookup ds "VariableData" = some (.str s))
    (hb : fromHex s = .ok b) :
    enrichDriverConfig gg ds
      = if b.length = 0 then .ok (dupdate ds "VariableData" (.dict [("Enabled", .str "No")]))
        else if b.length > 1 then
          .error (.exception ("enrich: SecureBoot data length(" ++ toString b.length ++ ") > 1"))
        else if b = [0] then .ok (dupdate ds "VariableData" (.dict [("Enabled", .str "No")]))
        else .ok (dupdate ds "VariableData" (.dict [("Enabled", .str "Yes")])) := by
  simp only [enrichDriverConfig, hu, hv, hb]
  rw [if_neg (by decide)]
  simp

/-- For `UnicodeName` in {PK, KEK, db, dbx} — dbx included — the
driver-config branch decodes `VariableData` through the signature
database decoder, propagating its failure. -/
theorem enrichDriverConfig_keydb (gg : List Nat → String)
    (ds : List (String × Data)) (u s : String) (b : List Nat)
    (hu4 : u = "PK" ∨ u = "KEK" ∨ u = "db" ∨ u = "dbx")
    (hu : dlookup ds "UnicodeName" = some (.str u))
    (hv : dlookup ds "VariableData" = some (.str s))
    (hb : fromHex s = .ok b) :
    enrichDriverConfig gg ds
      = match getKeyDB gg b with
        | .error e => .error e
        | .ok kls => .ok (dupdate ds "VariableData" (.list kls)) := by
  rcases hu4 with rfl | rfl | rfl | rfl <;>
    (simp only [enrichDriverConfig, hu, hv, hb]; rw [if_pos (by decide)])

/-- `getVar` on a `BootOrder` variable whose `VariableDataLength` is odd
raises the divisibility error. -/
theorem getVar_bootorder_odd (gdp : List Nat → Except PyErr String)
    (ds : List (String × Data)) (b : List Nat) (varlen : Int)
    (hbo : dlookup ds "UnicodeName" = some (.str "BootOrder"))
    (hvl : dlookup ds "VariableDataLength" = some (.int varlen))
    (hodd : varlen % 2 ≠ 0) :
    getVar gdp ds b
      = .error (.exception
          ("getVar: VariableDataLength(" ++ toString varlen ++ ") is not divisible by 2")) := by
  simp only [getVar, hbo, hvl]
  rw [if_pos (by simp [BEq.beq, Data.beq])]
  simp [hodd]

/-- `getVar` returns `None` when no branch matches: `UnicodeName`
missing, `VariableDataLength` missing, or a string name that is neither
`BootOrder` nor `Boot####`-prefixed. -/
theorem getVar_no_match (gdp : List Nat → Except PyErr String)
    (ds : List (String × Data)) (b : List Nat)
    (h : dlookup ds "UnicodeName" = none
        ∨ ((dlookup ds "UnicodeName").isSome ∧ dlookup ds "VariableDataLength" = none)
        ∨ (∃ u, dlookup ds "UnicodeName" = some (.str u)
            ∧ u ≠ "BootOrder" ∧ isBootPat u = false)) :
    getVar gdp ds b = .ok .null := by
  rcases h with h | ⟨h1, h2⟩ | ⟨u, h1, h2, h3⟩
  · simp [getVar, h]
  · cases hu : dlookup ds "UnicodeName" with
    | none => simp [getVar, hu]
    | some uv => simp [getVar, hu, h2]
  · simp only [getVar, h1]
    cases hv : dlookup ds "VariableDataLength" with
    | none => rfl
    | some vdl => simp [BEq.beq, Data.beq, h2, h3]

/-! ## Claim C8 -/

/-- **C8** — SecureBoot enrichment maps a zero-length `VariableData`
blob to `{Enabled: "No"}`, the one-byte blob `0x00` to `{Enabled: "No"}`,
any other one-byte blob to `{Enabled: "Yes"}`, and raises the length
error for every blob longer than one byte. -/
theorem secureboot_enrichment :
    ∀ (gdp : List Nat → Except PyErr String) (gg : List Nat → String)
      (fs ds : List (String × Data)) (s : String) (b : List Nat),
      dlookup fs "EventType" = some (.str "EV_EFI_VARIABLE_DRIVER_CONFIG") →
      dlookup fs "Event" = some (.dict ds) →
      dlookup ds "UnicodeName" = some (.str "SecureBoot") →
      dlookup ds "VariableData" = some (.str s) →
      fromHex s = .ok b →
      ((b = [] →
          enrichEvent gdp gg (.dict fs)
            = .ok (.dict (dupdate fs "Event"
                (.dict (dupdate ds "VariableData" (.dict [("Enabled", .str "No")]))))))
        ∧ (b = [0] →
          enrichEvent gdp gg (.dict fs)
            = .ok (.dict (dupdate fs "Event"
                (.dict (dupdate ds "VariableData" (.dict [("Enabled", .str "No")]))))))
        ∧ (∀ x, b = [x] → x ≠ 0 →
          enrichEvent gdp gg (.dict fs)
            = .ok (.dict (dupdate fs "Event"
                (.dict (dupdate ds "VariableData" (.dict [("Enabled", .str "Yes")]))))))
        ∧ (2 ≤ b.length →
          enrichEvent gdp gg (.dict fs)
            = .error (.exception
                ("enrich: SecureBoot data length(" ++ toString b.length ++ ") > 1")))) := by
  intro gdp gg fs ds s b h1 h2 hu hv hb
  have hdc := enrichEvent_driver_config gdp gg fs ds h1 h2
  have hsb := enrichDriverConfig_secureboot gg ds s b hu hv hb
  refine ⟨?_, ?_, ?_, ?_⟩
  · rintro rfl; rw [hdc, hsb]; rfl
  · rintro rfl; rw [hdc, hsb]; rfl
  · rintro x rfl hx
    rw [hdc, hsb]
    simp [hx]
  · intro hlen
    rw [hdc, hsb]
    rw [if_neg (by omega), if_pos (by omega)]

/-- Witness for C8: the four cases at the concrete hex payloads `""`,
`"00"`, `"01"` and `"0000"`. -/
theorem secureboot_enrichment_witness :
    (enrichEvent gdpOkSample ggSample
        (.dict [("EventType", .str "EV_EFI_VARIABLE_DRIVER_CONFIG"),
                ("Event", .dict [("UnicodeName", .str "SecureBoot"),
                                 ("VariableData", .str "")])])
      = .ok (.dict [("EventType", .str "EV_EFI_VARIABLE_DRIVER_CONFIG"),
                ("Event", .dict [("UnicodeName", .str "SecureBoot"),
                                 ("VariableData", .dict [("Enabled", .str "No")])])]))
    ∧ (enrichEvent gdpOkSample ggSample
        (.dict [("EventType", .str "EV_EFI_VARIABLE_DRIVER_CONFIG"),
                ("Event", .dict [("UnicodeName", .str "SecureBoot"),
                                 ("VariableData", .str "00")])])
      = .ok (.dict [("EventType", .str "EV_EFI_VARIABLE_DRIVER_CONFIG"),
                ("Event", .dict [("UnicodeName", .str "SecureBoot"),
                                 ("VariableData", .dict [("Enabled", .str "No")])])]))
    ∧ (enrichEvent gdpOkSample ggSample
        (.dict [("EventType", .str "EV_EFI_VARIABLE_DRIVER_CONFIG"),
                ("Event", .dict [("UnicodeName", .str "SecureBoot"),
                                 ("VariableData", .str "01")])])
      = .ok (.dict [("EventType", .str "EV_EFI_VARIABLE_DRIVER_CONFIG"),
                ("Event", .dict [("UnicodeName", .str "SecureBoot"),
                                 ("VariableData", .dict [("Enabled", .str "Yes")])])]))
    ∧ (enrichEvent gdpOkSample ggSample
        (.dict [("EventType", .str "EV_EFI_VARIABLE_DRIVER_CONFIG"),
                ("Event", .dict [("UnicodeName", .str "SecureBoot"),
                                 ("VariableData", .str "0000")])])
      = .error (.exception "enrich: SecureBoot data length(2) > 1")) := by
  have h1 := (secureboot_enrichment gdpOkSample ggSample
    [("EventType", .str "EV_EFI_VARIABLE_DRIVER_CONFIG"),
     ("Event", .dict [("UnicodeName", .str "SecureBoot"), ("VariableData", .str "")])]
    [("UnicodeName", .str "SecureBoot"), ("VariableData", .str "")] "" []
    rfl rfl rfl rfl rfl).1 rfl
  have h2 := (secureboot_enrichment gdpOkSample ggSample
    [("EventType", .str "EV_EFI_VARIABLE_DRIVER_CONFIG"),
     ("Event", .dict [("UnicodeName", .str "SecureBoot"), ("VariableData", .str "00")])]
    [("UnicodeName", .str "SecureBoot"), ("VariableData", .str "00")] "00" [0]
    rfl rfl rfl rfl rfl).2.1 rfl
  have h3 := ((secureboot_enrichment gdpOkSample ggSample
    [("EventType", .str "EV_EFI_VARIABLE_DRIVER_CONFIG"),
     ("Event", .dict [("UnicodeName", .str "SecureBoot"), ("VariableData", .str "01")])]
    [("UnicodeName", .str "SecureBoot"), ("VariableData", .str "01")] "01" [1]
    rfl rfl rfl rfl rfl).2.2.1 1 rfl (by decide))
  have h4 := (secureboot_enrichment gdpOkSample ggSample
    [("EventType", .str "EV_EFI_VARIABLE_DRIVER_CONFIG"),
     ("Event", .dict [("UnicodeName", .str "SecureBoot"), ("VariableData", .str "0000")])]
    [("UnicodeName", .str "SecureBoot"), ("VariableData", .str "0000")] "0000" [0, 0]
    rfl rfl rfl rfl rfl).2.2.2 (by decide)
  exact ⟨h1, h2, h3, h4⟩

/-! ## Claim C4 -/

/-- An `EV_EFI_VARIABLE_DRIVER_CONFIG` event for `dbx` with an empty
(valid) signature database payload. -/
def dbxEventIn : Data :=
  .dict [("EventType", .str "EV_EFI_VARIABLE_DRIVER_CONFIG"),
         ("Event", .dict [("UnicodeName", .str "dbx"), ("VariableData", .str "")])]

/-- The same event after enrichment: `VariableData` decoded to the empty
sequence of signature lists. -/
def dbxEventOut : Data :=
  .dict [("EventType", .str "EV_EFI_VARIABLE_DRIVER_CONFIG"),
         ("Event", .dict [("UnicodeName", .str "dbx"), ("VariableData", .list [])])]

/-- **C4 (counterexample)** — The claim states that a `dbx` event's
`VariableData` is left unchanged.  In fact `enrich` decodes it through
the signature-database decoder, changing the field. -/
theorem dbx_decoded_counterexample :
    enrichEvent gdpOkSample ggSample dbxEventIn = .ok dbxEventOut
      ∧ dbxEventOut ≠ dbxEventIn := by
  refine ⟨rfl, ?_⟩
  intro h
  simp [dbxEventOut, dbxEventIn] at h

/-- **C4 (amended)** — For `UnicodeName` in {PK, KEK, db, dbx} — dbx
treated identically to the other three — `enrich` decodes the event's
`VariableData` via the signature-database decoder. -/
theorem dbx_also_decoded :
    ∀ (gdp : List Nat → Except PyErr String) (gg : List Nat → String)
      (fs ds : List (String × Data)) (u s : String) (b : List Nat) (kls : List Data),
      (u = "PK" ∨ u = "KEK" ∨ u = "db" ∨ u = "dbx") →
      dlookup fs "EventType" = some (.str "EV_EFI_VARIABLE_DRIVER_CONFIG") →
      dlookup fs "Event" = some (.dict ds) →
      dlookup ds "UnicodeName" = some (.str u) →
      dlookup ds "VariableData" = some (.str s) →
      fromHex s = .ok b →
      getKeyDB gg b = .ok kls →
      enrichEvent gdp gg (.dict fs)
        = .ok (.dict (dupdate fs "Event"
            (.dict (dupdate ds "VariableData" (.list kls))))) := by
  intro gdp gg fs ds u s b kls hu4 h1 h2 hu hv hb hdb
  rw [enrichEvent_driver_config gdp gg fs ds h1 h2,
    enrichDriverConfig_keydb gg ds u s b hu4 hu hv hb, hdb]

/-- Witness for the amended C4 at the concrete `dbx` event. -/
theorem dbx_also_decoded_witness :
    enrichEvent gdpOkSample ggSample dbxEventIn = .ok dbxEventOut :=
  dbx_also_decoded gdpOkSample ggSample
    [("EventType", .str "EV_EFI_VARIABLE_DRIVER_CONFIG"),
     ("Event", .dict [("UnicodeName", .str "dbx"), ("VariableData", .str "")])]
    [("UnicodeName", .str "dbx"), ("VariableData", .str "")]
    "dbx" "" [] []
    (by simp) rfl rfl rfl rfl rfl rfl

/-! ## Claim C10 -/

/-- **C10** — For every `EV_EFI_VARIABLE_BOOT` event with a (hex)
`VariableData` on which the boot-variable decoder matches no case,
`enrich` replaces `VariableData` with null (`None`) rather than leaving
the original hex string in place. -/
theorem varboot_no_match_becomes_null :
    ∀ (gdp : List Nat → Except PyErr String) (gg : List Nat → String)
      (fs ds : List (String × Data)) (s : String) (b : List Nat),
      dlookup fs "EventType" = some (.str "EV_EFI_VARIABLE_BOOT") →
      dlookup fs "Event" = some (.dict ds) →
      dlookup ds "VariableData" = some (.str s) →
      fromHex s = .ok b →
      (dlookup ds "UnicodeName" = none
        ∨ ((dlookup ds "UnicodeName").isSome ∧ dlookup ds "VariableDataLength" = none)
        ∨ (∃ u, dlookup ds "UnicodeName" = some (.str u)
            ∧ u ≠ "BootOrder" ∧ isBootPat u = false)) →
      enrichEvent gdp gg (.dict fs)
        = .ok (.dict (dupdate fs "Event" (.dict (dupdate ds "VariableData" .null)))) := by
  intro gdp gg fs ds s b h1 h2 h3 h4 hnm
  rw [enrichEvent_varboot gdp gg fs ds s b h1 h2 h3 h4, getVar_no_match gdp ds b hnm]

/-- Witness for C10: a `BootNext` variable (matched by neither decoder
case) has its `VariableData` hex string replaced by null. -/
theorem varboot_no_match_becomes_null_witness :
    enrichEvent gdpOkSample ggSample
        (.dict [("EventType", .str "EV_EFI_VARIABLE_BOOT"),
                ("Event", .dict [("UnicodeName", .str "BootNext"),
                                 ("VariableDataLength", .int 2),
                                 ("VariableData", .str "0100")])])
      = .ok (.dict [("EventType", .str "EV_EFI_VARIABLE_BOOT"),
                ("Event", .dict [("UnicodeName", .str "BootNext"),
                                 ("VariableDataLength", .int 2),
                                 ("VariableData", .null)])]) :=
  varboot_no_match_becomes_null gdpOkSample ggSample
    [("EventType", .str "EV_EFI_VARIABLE_BOOT"),
     ("Event", .dict [("UnicodeName", .str "BootNext"),
                      ("VariableDataLength", .int 2),
                      ("VariableData", .str "0100")])]
    [("UnicodeName", .str "BootNext"), ("VariableDataLength", .int 2),
     ("VariableData", .str "0100")]
    "0100" [1, 0] rfl rfl rfl rfl
    (.inr (.inr ⟨"BootNext", rfl, by decide, by decide⟩))

/-! ## Claim C3 -/

/-- A boot-variable event whose `BootOrder` payload has an odd declared
length: `getVar` raises on it. -/
def bootOrderOddEvent : Data :=
  .dict [("EventType", .str "EV_EFI_VARIABLE_BOOT"),
         ("Event", .dict [("UnicodeName", .str "BootOrder"),
                          ("VariableDataLength", .int 1),
                          ("VariableData", .str "00")])]

/-- **C3 (counterexample)** — The claim states that boot-variable decode
failures do not abort enrichment of the rest of the log.  In fact the
`getVar` exception has no handler: on a log holding a malformed
`BootOrder` event followed by another event, the whole `enrich` call
raises (and the second event is never enriched). -/
theorem bootvar_failure_aborts_enrich :
    enrich gdpOkSample ggSample
        (.dict [("events", .list [bootOrderOddEvent,
          .dict [("EventType", .str "EV_NO_ACTION")]])])
      = .error (.exception "getVar: VariableDataLength(1) is not divisible by 2") := by
  rfl

/-- **C3 (amended)** — Only device-path decoding is defensive: when the
device-path formatter fails, the raw hex string is substituted and the
event survives.  The signature-database, SecureBoot-length, GPT and
boot-variable decode paths are all fatal to the overall `enrich` call
(the variable-authority path performs no fallible in-repo decoding
beyond the hex read). -/
theorem enrich_fatality_profile :
    (∀ (gdp : List Nat → Except PyErr String) (gg : List Nat → String)
       (t : String) (fs ds : List (String × Data)) (s : String) (b : List Nat) (e : PyErr),
       (t = "EV_EFI_BOOT_SERVICES_APPLICATION" ∨ t = "EV_EFI_BOOT_SERVICES_DRIVER"
         ∨ t = "EV_EFI_RUNTIME_SERVICES_DRIVER") →
       dlookup fs "EventType" = some (.str t) →
       dlookup fs "Event" = some (.dict ds) →
       dlookup ds "DevicePath" = some (.str s) →
       fromHex s = .ok b →
       gdp b = .error e →
       enrichEvent gdp gg (.dict fs)
         = .ok (.dict (dupdate fs "Event" (.dict (dupdate ds "DevicePath" (.str s))))))
    ∧ (∀ (gdp : List Nat → Except PyErr String) (gg : List Nat → String)
         (fs ds : List (String × Data)) (s : String) (b : List Nat) (varlen : Int)
         (rest : List Data),
         dlookup fs "EventType" = some (.str "EV_EFI_VARIABLE_BOOT") →
         dlookup fs "Event" = some (.dict ds) →
         dlookup ds "VariableData" = some (.str s) →
         fromHex s = .ok b →
         dlookup ds "UnicodeName" = some (.str "BootOrder") →
         dlookup ds "VariableDataLength" = some (.int varlen) →
         varlen % 2 ≠ 0 →
         enrich gdp gg (.dict [("events", .list (.dict fs :: rest))])
           = .error (.exception ("getVar: VariableDataLength(" ++ toString varlen
               ++ ") is not divisible by 2")))
    ∧ (∀ (gdp : List Nat → Except PyErr String) (gg : List Nat → String)
         (fs ds : List (String × Data)) (s : String) (b : List Nat) (rest : List Data),
         dlookup fs "EventType" = some (.str "EV_EFI_VARIABLE_DRIVER_CONFIG") →
         dlookup fs "Event" = some (.dict ds) →
         dlookup ds "UnicodeName" = some (.str "SecureBoot") →
         dlookup ds "VariableData" = some (.str s) →
         fromHex s = .ok b →
         2 ≤ b.length →
         enrich gdp gg (.dict [("events", .list (.dict fs :: rest))])
           = .error (.exception
               ("enrich: SecureBoot data length(" ++ toString b.length ++ ") > 1")))
    ∧ (∀ (gdp : List Nat → Except PyErr String) (gg : List Nat → String)
         (fs ds : List (String × Data)) (u s : String) (b : List Nat) (e : PyErr)
         (rest : List Data),
         (u = "PK" ∨ u = "KEK" ∨ u = "db" ∨ u = "dbx") →
         dlookup fs "EventType" = some (.str "EV_EFI_VARIABLE_DRIVER_CONFIG") →
         dlookup fs "Event" = some (.dict ds) →
         dlookup ds "UnicodeName" = some (.str u) →
         dlookup ds "VariableData" = some (.str s) →
         fromHex s = .ok b →
         getKeyDB gg b = .error e →
         enrich gdp gg (.dict [("events", .list (.dict fs :: rest))]) = .error e)
    ∧ (∀ (gdp : List Nat → Except PyErr String) (gg : List Nat → String)
         (fs : List (String × Data)) (s : String) (e : PyErr) (rest : List Data),
         dlookup fs "EventType" = some (.str "EV_EFI_GPT_EVENT") →
         dlookup fs "Event" = some (.str s) →
         fromHex s = .error e →
         enrich gdp gg (.dict [("events", .list (.dict fs :: rest))]) = .error e) := by
  refine ⟨?_, ?_, ?_, ?_, ?_⟩
  · intro gdp gg t fs ds s b e ht h1 h2 h3 h4 h5
    rw [enrichEvent_bsa gdp gg t fs ds s b ht h1 h2 h3 h4, h5]
  · intro gdp gg fs ds s b varlen rest h1 h2 h3 h4 hbo hvl hodd
    refine enrich_cons_error gdp gg _ rest _ ?_
    rw [enrichEvent_varboot gdp gg fs ds s b h1 h2 h3 h4,
      getVar_bootorder_odd gdp ds b varlen hbo hvl hodd]
  · intro gdp gg fs ds s b rest h1 h2 hu hv hb hlen
    refine enrich_cons_error gdp gg _ rest _ ?_
    rw [enrichEvent_driver_config gdp gg fs ds h1 h2,
      enrichDriverConfig_secureboot gg ds s b hu hv hb]
    rw [if_neg (by omega), if_pos (by omega)]
  · intro gdp gg fs ds u s b e rest hu4 h1 h2 hu hv hb hdb
    refine enrich_cons_error gdp gg _ rest _ ?_
    rw [enrichEvent_driver_config gdp gg fs ds h1 h2,
      enrichDriverConfig_keydb gg ds u s b hu4 hu hv hb, hdb]
  · intro gdp gg fs s e rest h1 h2 h3
    exact enrich_cons_error gdp gg _ rest _ (enrichEvent_gpt_badhex gdp gg fs s e h1 h2 h3)

/-- Witness for the amended C3: each path at a concrete input. -/
theorem enrich_fatality_profile_witness :
    (enrichEvent gdpFailSample ggSample
        (.dict [("EventType", .str "EV_EFI_BOOT_SERVICES_APPLICATION"),
                ("Event", .dict [("DevicePath", .str "0102")])])
      = .ok (.dict [("EventType", .str "EV_EFI_BOOT_SERVICES_APPLICATION"),
                ("Event", .dict [("DevicePath", .str "0102")])]))
    ∧ (enrich gdpOkSample ggSample
        (.dict [("events", .list [bootOrderOddEvent,
          .dict [("EventType", .str "EV_NO_ACTION")]])])
      = .error (.exception "getVar: VariableDataLength(1) is not divisible by 2"))
    ∧ (enrich gdpOkSample ggSample
        (.dict [("events", .list [
          .dict [("EventType", .str "EV_EFI_VARIABLE_DRIVER_CONFIG"),
                 ("Event", .dict [("UnicodeName", .str "SecureBoot"),
                                  ("VariableData", .str "0000")])]])])
      = .error (.exception "enrich: SecureBoot data length(2) > 1"))
    ∧ (enrich gdpOkSample ggSample
        (.dict [("events", .list [
          .dict [("EventType", .str "EV_EFI_VARIABLE_DRIVER_CONFIG"),
                 ("Event", .dict [("UnicodeName", .str "db"),
                                  ("VariableData", .str "00")])]])])
      = .error (.exception "getKeyDB: SignatureListSize is too small 0"))
    ∧ (enrich gdpOkSample ggSample
        (.dict [("events", .list [
          .dict [("EventType", .str "EV_EFI_GPT_EVENT"),
                 ("Event", .str "0z")]])])
      = .error (.valueError "non-hexadecimal number found in fromhex() arg")) := by
  refine ⟨?_, ?_, ?_, ?_, ?_⟩
  · exact enrich_fatality_profile.1 gdpFailSample ggSample
      "EV_EFI_BOOT_SERVICES_APPLICATION"
      [("EventType", .str "EV_EFI_BOOT_SERVICES_APPLICATION"),
       ("Event", .dict [("DevicePath", .str "0102")])]
      [("DevicePath", .str "0102")] "0102" [1, 2]
      (.exception "getDevicePath: efidp_format_device_path returned -22")
      (.inl rfl) rfl rfl rfl rfl rfl
  · exact enrich_fatality_profile.2.1 gdpOkSample ggSample
      [("EventType", .str "EV_EFI_VARIABLE_BOOT"),
       ("Event", .dict [("UnicodeName", .str "BootOrder"),
                        ("VariableDataLength", .int 1),
                        ("VariableData", .str "00")])]
      [("UnicodeName", .str "BootOrder"), ("VariableDataLength", .int 1),
       ("VariableData", .str "00")]
      "00" [0] 1 [.dict [("EventType", .str "EV_NO_ACTION")]]
      rfl rfl rfl rfl rfl rfl (by decide)
  · exact enrich_fatality_profile.2.2.1 gdpOkSample ggSample
      [("EventType", .str "EV_EFI_VARIABLE_DRIVER_CONFIG"),
       ("Event", .dict [("UnicodeName", .str "SecureBoot"),
                        ("VariableData", .str "0000")])]
      [("UnicodeName", .str "SecureBoot"), ("VariableData", .str "0000")]
      "0000" [0, 0] []
      rfl rfl rfl rfl rfl (by decide)
  · exact enrich_fatality_profile.2.2.2.1 gdpOkSample ggSample
      [("EventType", .str "EV_EFI_VARIABLE_DRIVER_CONFIG"),
       ("Event", .dict [("UnicodeName", .str "db"), ("VariableData", .str "00")])]
      [("UnicodeName", .str "db"), ("VariableData", .str "00")]
      "db" "00" [0] (.exception "getKeyDB: SignatureListSize is too small 0") []
      (by simp) rfl rfl rfl rfl rfl rfl
  · exact enrich_fatality_profile.2.2.2.2 gdpOkSample ggSample
      [("EventType", .str "EV_EFI_GPT_EVENT"), ("Event", .str "0z")]
      "0z" (.valueError "non-hexadecimal number found in fromhex() arg") []
      rfl rfl rfl



/-! ## Claim C7 -/

/-- **C7** — In the delay mechanism: the initializer test resets each
named accumulator in the scope to the empty list and passes for every
subject; each per-event delayed-field test appends the current subject to
its named accumulator and passes (provided the accumulator holds a
list); and the final `DelayToFields` test ignores its subject, reads all
accumulators by name into a fresh mapping (`delayedDict`, missing ones
as null), and returns the result of the configured fields test applied
to that mapping. -/
theorem delay_mechanism_semantics :
    ∀ (n : Nat) (fns : List String) (ft : Test) (g : Globals) (v : Data),
      (whyNotF (n + 1) (.delayInitializer fns) g v
        = some (.ok "", initGlobals g fns, .delayInitializer fns))
      ∧ (∀ fn vs, dlookup g fn = some (.list vs) →
          whyNotF (n + 1) (.delayedField fn) g v
            = some (.ok "", dupdate g fn (.list (vs ++ [v])), .delayedField fn))
      ∧ (whyNotF (n + 1) (.delayToFields ft fns) g v
          = match whyNotF n ft g (.dict (delayedDict g fns)) with
            | none => none
            | some (r, g2, ft2) => some (r, g2, .delayToFields ft2 fns))
      ∧ (∀ v2, whyNotF (n + 1) (.delayToFields ft fns) g v
          = whyNotF (n + 1) (.delayToFields ft fns) g v2) := by
  intro n fns ft g v
  refine ⟨?_, ?_, ?_, ?_⟩
  · simp [whyNotF]
  · intro fn vs h
    simp [whyNotF, delayedFieldWhy, h]
  · simp [whyNotF]
  · intro v2
    simp [whyNotF]

/-- Witness for C7: appending `2` to the accumulator `k = [1]`. -/
theorem delay_mechanism_semantics_witness :
    whyNotF 4 (.delayedField "k") [("k", .list [.int 1])] (.int 2)
      = some (.ok "", [("k", .list [.int 1, .int 2])], .delayedField "k") := by
  have h := (delay_mechanism_semantics 3 ["k"] .acceptAll
    [("k", .list [.int 1])] (.int 2)).2.1 "k" [.int 1] rfl
  simpa [dupdate] using h



/-! ## Claim C6 — the frame property of `why_not`

The evaluator threads the post-state of every test object; these lemmas
show the post-state always equals the input object, i.e. `why_not` never
mutates the test, for each evaluation loop and then for every variant by
induction on the fuel. -/

/-- `And.why_not` returns its child list unchanged. -/
theorem andLoopF_frame (n : Nat)
    (ih : ∀ t g v r, whyNotF n t g v = some r → r.2.2 = t) :
    ∀ (ts : List Test) (g : Globals) (v : Data) res,
      andLoopF n ts g v = some res → res.2.2 = ts := by
  intro ts
  induction ts with
  | nil =>
    intro g v res h
    simp only [andLoopF] at h
    cases h
    rfl
  | cons t ts ihl =>
    intro g v res h
    simp only [andLoopF] at h
    cases hw : whyNotF n t g v with
    | none => rw [hw] at h; exact absurd h (by simp)
    | some w =>
      obtain ⟨r1, g2, t2⟩ := w
      have ht2 := ih t g v (r1, g2, t2) hw
      rw [hw] at h
      cases r1 with
      | error e =>
        dsimp only at h
        cases h
        simpa using ht2
      | ok r =>
        dsimp only at h
        by_cases hr : r = ""
        · subst hr
          simp only [if_pos rfl] at h
          cases hl : andLoopF n ts g2 v with
          | none => rw [hl] at h; exact absurd h (by simp)
          | some l =>
            obtain ⟨res2, g3, ts3⟩ := l
            have hts3 := ihl g2 v (res2, g3, ts3) hl
            rw [hl] at h
            dsimp only at h
            cases h
            simp only []
            simp at ht2 hts3
            rw [ht2, hts3]
        · rw [if_neg hr] at h
          cases h
          simpa using ht2

/-- `Or.why_not` returns its child list unchanged. -/
theorem orLoopF_frame (n : Nat)
    (ih : ∀ t g v r, whyNotF n t g v = some r → r.2.2 = t) :
    ∀ (ts : List Test) (g : Globals) (v : Data) (acc : List String) res,
      orLoopF n ts g v acc = some res → res.2.2 = ts := by
  intro ts
  induction ts with
  | nil =>
    intro g v acc res h
    simp only [orLoopF] at h
    cases h
    rfl
  | cons t ts ihl =>
    intro g v acc res h
    simp only [orLoopF] at h
    cases hw : whyNotF n t g v with
    | none => rw [hw] at h; exact absurd h (by simp)
    | some w =>
      obtain ⟨r1, g2, t2⟩ := w
      have ht2 := ih t g v (r1, g2, t2) hw
      rw [hw] at h
      cases r1 with
      | error e =>
        dsimp only at h
        cases h
        simpa using ht2
      | ok r =>
        dsimp only at h
        by_cases hr : r = ""
        · subst hr
          simp only [if_pos rfl] at h
          cases h
          simpa using ht2
        · rw [if_neg hr] at h
          cases hl : orLoopF n ts g2 v (r :: acc) with
          | none => rw [hl] at h; exact absurd h (by simp)
          | some l =>
            obtain ⟨res2, g3, ts3⟩ := l
            have hts3 := ihl g2 v (r :: acc) (res2, g3, ts3) hl
            rw [hl] at h
            dsimp only at h
            cases h
            simp only []
            simp at ht2 hts3
            rw [ht2, hts3]

/-- `Dispatcher.why_not` returns its registered test table unchanged. -/
theorem dispLoopF_frame (n : Nat)
    (ih : ∀ t g v r, whyNotF n t g v = some r → r.2.2 = t) :
    ∀ (tmap : List (List Data × Test)) (kv : List Data) (g : Globals) (v : Data) res,
      dispLoopF n kv g v tmap = some res → res.2.2 = tmap := by
  intro tmap
  induction tmap with
  | nil =>
    intro kv g v res h
    simp only [dispLoopF] at h
    cases h
    rfl
  | cons p rest ihl =>
    obtain ⟨k, t⟩ := p
    intro kv g v res h
    simp only [dispLoopF] at h
    by_cases hk : Data.beqList k kv
    · rw [if_pos hk] at h
      cases hw : whyNotF n t g v with
      | none => rw [hw] at h; exact absurd h (by simp)
      | some w =>
        obtain ⟨r1, g2, t2⟩ := w
        have ht2 := ih t g v (r1, g2, t2) hw
        rw [hw] at h
        dsimp only at h
        cases h
        simp only []
        simp at ht2
        rw [ht2]
    · rw [if_neg hk] at h
      cases hl : dispLoopF n kv g v rest with
      | none => rw [hl] at h; exact absurd h (by simp)
      | some l =>
        obtain ⟨res2, g3, rest3⟩ := l
        have hrest3 := ihl kv g v (res2, g3, rest3) hl
        rw [hl] at h
        dsimp only at h
        cases h
        simp only []
        simp at hrest3
        rw [hrest3]

/-- `IterateTest.why_not` returns its element test unchanged, across
every iteration of the threading loop. -/
theorem iterLoopF_frame (n : Nat)
    (ih : ∀ t g v r, whyNotF n t g v = some r → r.2.2 = t) :
    ∀ (es : List Data) (se : Bool) (idx : Nat) (g : Globals) (et : Test) res,
      iterLoopF n se es idx g et = some res → res.2.2 = et := by
  intro es
  induction es with
  | nil =>
    intro se idx g et res h
    simp only [iterLoopF] at h
    cases h
    rfl
  | cons e es ihl =>
    intro se idx g et res h
    simp only [iterLoopF] at h
    cases hw : whyNotF n et g e with
    | none => rw [hw] at h; exact absurd h (by simp)
    | some w =>
      obtain ⟨r1, g2, et2⟩ := w
      have het2 := ih et g e (r1, g2, et2) hw
      simp at het2
      rw [hw] at h
      cases r1 with
      | error err =>
        dsimp only at h
        cases h
        simpa using het2
      | ok r =>
        dsimp only at h
        by_cases hr : r = ""
        · subst hr
          simp only [if_pos rfl] at h
          have := ihl se (idx + 1) g2 et2 res h
          rw [this, het2]
        · rw [if_neg hr] at h
          by_cases hse : se = true
          · rw [if_pos hse] at h
            cases h
            simpa using het2
          · rw [if_neg hse] at h
            cases h
            simpa using het2

/-- `TupleTest.why_not` returns its child list unchanged. -/
theorem tupleLoopF_frame (n : Nat)
    (ih : ∀ t g v r, whyNotF n t g v = some r → r.2.2 = t) :
    ∀ (ts : List Test) (es : List Data) (idx : Nat) (g : Globals) res,
      tupleLoopF n ts es idx g = some res → res.2.2 = ts := by
  intro ts
  induction ts with
  | nil =>
    intro es idx g res h
    simp only [tupleLoopF] at h
    cases h
    rfl
  | cons t ts ihl =>
    intro es idx g res h
    cases es with
    | nil =>
      simp only [tupleLoopF] at h
      cases h
      rfl
    | cons e es =>
      simp only [tupleLoopF] at h
      cases hw : whyNotF n t g e with
      | none => rw [hw] at h; exact absurd h (by simp)
      | some w =>
        obtain ⟨r1, g2, t2⟩ := w
        have ht2 := ih t g e (r1, g2, t2) hw
        rw [hw] at h
        cases r1 with
        | error err =>
          dsimp only at h
          cases h
          simpa using ht2
        | ok r =>
          dsimp only at h
          by_cases hr : r = ""
          · subst hr
            simp only [if_pos rfl] at h
            cases hl : tupleLoopF n ts es (idx + 1) g2 with
            | none => rw [hl] at h; exact absurd h (by simp)
            | some l =>
              obtain ⟨res2, g3, ts3⟩ := l
              have hts3 := ihl es (idx + 1) g2 (res2, g3, ts3) hl
              rw [hl] at h
              dsimp only at h
              cases h
              simp only []
              simp at ht2 hts3
              rw [ht2, hts3]
          · rw [if_neg hr] at h
            cases h
            simpa using ht2

/-- Every `why_not` call that completes returns the test object it was
invoked on, unchanged. -/
theorem whyNotF_frame :
    ∀ (n : Nat) (t : Test) (g : Globals) (v : Data) (r : WNRes),
      whyNotF n t g v = some r → r.2.2 = t := by
  intro n
  induction n with
  | zero =>
    intro t g v r h
    simp only [whyNotF] at h
    exact Option.noConfusion h
  | succ n ih =>
    intro t g v r h
    cases t with
    | acceptAll => simp only [whyNotF] at h; cases h; rfl
    | rejectAll why => simp only [whyNotF] at h; cases h; rfl
    | intEqual e => simp only [whyNotF] at h; cases h; rfl
    | stringEqual e => simp only [whyNotF] at h; cases h; rfl
    | regExp pat f => simp only [whyNotF] at h; cases h; rfl
    | delayedField fn => simp only [whyNotF] at h; cases h; rfl
    | delayInitializer fns => simp only [whyNotF] at h; cases h; rfl
    | and ts =>
      simp only [whyNotF] at h
      cases hl : andLoopF n ts g v with
      | none => rw [hl] at h; exact absurd h (by simp)
      | some l =>
        obtain ⟨r1, g2, ts2⟩ := l
        have h2 := andLoopF_frame n ih ts g v (r1, g2, ts2) hl
        rw [hl] at h
        dsimp only at h
        cases h
        simp at h2
        simp [h2]
    | or ts =>
      simp only [whyNotF] at h
      by_cases he : ts.isEmpty
      · rw [if_pos he] at h; cases h; rfl
      · rw [if_neg he] at h
        cases hl : orLoopF n ts g v [] with
        | none => rw [hl] at h; exact absurd h (by simp)
        | some l =>
          obtain ⟨r1, g2, ts2⟩ := l
          have h2 := orLoopF_frame n ih ts g v [] (r1, g2, ts2) hl
          rw [hl] at h
          dsimp only at h
          cases h
          simp at h2
          simp [h2]
    | dispatcher kns tmap =>
      simp only [whyNotF] at h
      cases hpre : dispatchKey kns tmap v with
      | error reason => rw [hpre] at h; dsimp only at h; cases h; rfl
      | ok kv =>
        rw [hpre] at h
        dsimp only at h
        cases hl : dispLoopF n kv g v tmap with
        | none => rw [hl] at h; exact absurd h (by simp)
        | some l =>
          obtain ⟨r1, g2, tm2⟩ := l
          have h2 := dispLoopF_frame n ih tmap kv g v (r1, g2, tm2) hl
          rw [hl] at h
          dsimp only at h
          cases h
          simp at h2
          simp [h2]
    | fieldTest fname ftest shw =>
      simp only [whyNotF] at h
      cases hpre : fieldGet fname v with
      | error reason => rw [hpre] at h; dsimp only at h; cases h; rfl
      | ok fv =>
        rw [hpre] at h
        dsimp only at h
        cases hw : whyNotF n ftest g fv with
        | none => rw [hw] at h; exact absurd h (by simp)
        | some w =>
          obtain ⟨r1, g2, t2⟩ := w
          have h2 := ih ftest g fv (r1, g2, t2) hw
          simp at h2
          rw [hw] at h
          cases r1 with
          | error e => dsimp only at h; cases h; simp [h2]
          | ok rr =>
            dsimp only at h
            split at h
            · cases h; simp [h2]
            · cases h; simp [h2]
    | iterateTest et se =>
      simp only [whyNotF] at h
      cases hpre : asList v with
      | none => rw [hpre] at h; dsimp only at h; cases h; rfl
      | some es =>
        rw [hpre] at h
        dsimp only at h
        cases hl : iterLoopF n se es 0 g et with
        | none => rw [hl] at h; exact absurd h (by simp)
        | some l =>
          obtain ⟨r1, g2, et2⟩ := l
          have h2 := iterLoopF_frame n ih es se 0 g et (r1, g2, et2) hl
          rw [hl] at h
          dsimp only at h
          cases h
          simp at h2
          simp [h2]
    | tupleTest ts =>
      simp only [whyNotF] at h
      cases hpre : asList v with
      | none => rw [hpre] at h; dsimp only at h; cases h; rfl
      | some es =>
        rw [hpre] at h
        dsimp only at h
        by_cases hlen : es.length ≠ ts.length
        · rw [if_pos hlen] at h; cases h; rfl
        · rw [if_neg hlen] at h
          cases hl : tupleLoopF n ts es 0 g with
          | none => rw [hl] at h; exact absurd h (by simp)
          | some l =>
            obtain ⟨r1, g2, ts2⟩ := l
            have h2 := tupleLoopF_frame n ih ts es 0 g (r1, g2, ts2) hl
            rw [hl] at h
            dsimp only at h
            cases h
            simp at h2
            simp [h2]
    | delayToFields ft fns =>
      simp only [whyNotF] at h
      cases hw : whyNotF n ft g (.dict (delayedDict g fns)) with
      | none => rw [hw] at h; exact absurd h (by simp)
      | some w =>
        obtain ⟨r1, g2, ft2⟩ := w
        have h2 := ih ft g (.dict (delayedDict g fns)) (r1, g2, ft2) hw
        simp at h2
        rw [hw] at h
        dsimp only at h
        cases h
        simp [h2]
    | digestTest gd oe =>
      cases oe with
      | none =>
        simp only [whyNotF] at h
        cases hpre : digestPre gd v <;> rw [hpre] at h <;> dsimp only at h <;>
          (cases h; rfl)
      | some t0 =>
        simp only [whyNotF] at h
        cases hpre : digestPre gd v with
        | reason rr => rw [hpre] at h; dsimp only at h; cases h; rfl
        | matched => rw [hpre] at h; dsimp only at h; cases h; rfl
        | exhausted =>
          rw [hpre] at h
          dsimp only at h
          cases hw : whyNotF n t0 g v with
          | none => rw [hw] at h; exact absurd h (by simp)
          | some w =>
            obtain ⟨r1, g2, t2⟩ := w
            have h2 := ih t0 g v (r1, g2, t2) hw
            simp at h2
            rw [hw] at h
            cases r1 with
            | error e => dsimp only at h; cases h; simp [h2]
            | ok rr =>
              dsimp only at h
              by_cases hr : rr = ""
              · rw [if_pos hr] at h; cases h; simp [h2]
              · rw [if_neg hr] at h; cases h; simp [h2]
    | variableTest vn un dt =>
      simp only [whyNotF] at h
      cases hpre : variableTestPre vn un v with
      | error reason => rw [hpre] at h; dsimp only at h; cases h; rfl
      | ok vdata =>
        rw [hpre] at h
        dsimp only at h
        cases hw : whyNotF n dt g vdata with
        | none => rw [hw] at h; exact absurd h (by simp)
        | some w =>
          obtain ⟨r1, g2, dt2⟩ := w
          have h2 := ih dt g vdata (r1, g2, dt2) hw
          simp at h2
          rw [hw] at h
          dsimp only at h
          cases h
          simp [h2]

/-- **C6** — For every `Test` variant, every globals scope, and every
subject, a completed `why_not` call leaves the test object (with all its
child tests) unchanged — the threaded post-state equals the input — and
all per-call mutable state lives in the globals argument, so evaluating
a compiled predicate tree from equal fresh scopes yields equal
results. -/
theorem why_not_frame_and_repeatable :
    ∀ (n : Nat) (t : Test) (g : Globals) (v : Data) (r : WNRes),
      whyNotF n t g v = some r →
        r.2.2 = t ∧ ∀ g2, g2 = g → whyNotF n t g2 v = some r := by
  intro n t g v r h
  exact ⟨whyNotF_frame n t g v r h, fun g2 hg => hg ▸ h⟩

/-- Witness for C6: a conjunction evaluated on a concrete scope (with a
delay accumulator, the one combinator that writes to the scope). -/
theorem why_not_frame_and_repeatable_witness :
    ((Except.ok "" : Except PyErr String), ([("k", Data.list [])] : Globals),
        Test.and [.acceptAll, .intEqual 3, .delayedField "k"]).2.2
        = Test.and [.acceptAll, .intEqual 3, .delayedField "k"]
      ∧ whyNotF 5 (.and [.acceptAll, .intEqual 3, .delayedField "k"])
          [("k", .list [])] (.int 3)
        = some (.ok "", [("k", .list [.int 3])],
            .and [.acceptAll, .intEqual 3, .delayedField "k"]) := by
  have h0 : whyNotF 5 (.and [.acceptAll, .intEqual 3, .delayedField "k"])
      [("k", .list [])] (.int 3)
      = some (.ok "", [("k", .list [.int 3])],
          .and [.acceptAll, .intEqual 3, .delayedField "k"]) := by
    simp [whyNotF, andLoopF, intEqualWhy, delayedFieldWhy, dlookup, dupdate]
  have h := why_not_frame_and_repeatable 5
    (.and [.acceptAll, .intEqual 3, .delayedField "k"]) [("k", .list [])] (.int 3)
    (.ok "", [("k", .list [.int 3])], .and [.acceptAll, .intEqual 3, .delayedField "k"]) h0
  exact ⟨h.1, h.2 [("k", .list [])] rfl⟩
